import Mathlib

/-!
Verification development for the dozemate backend telemetry core.

The JavaScript sources are shallowly embedded:
JS numbers are modelled as rationals (the code only compares, copies and
defaults them; no float rounding is exercised by any statement below),
JS strings as Lean strings, JS objects with a fixed key set as structures,
and open-ended JS objects (payload bodies, metric bags, tracker maps) as
association lists.  Mongo collections become Lean lists; a findOne or a
findByIdAndUpdate on the document found by a findOne acts on the first
list entry matching the query.  Every definition is executable.

Conventions for optional JS values:
an `Option A` field is `none` when the key is absent, null or undefined
(the distinction is noted where the code distinguishes them); the type
`JField A := Option (Option A)` models a JS object field where the outer
layer records whether the key exists at all and the inner layer whether
the stored value is defined (`some none` models a key that is present
with value undefined, which object spread still copies).
-/

namespace Dozemate

/-! ### JS string and object primitives

Helpers that mirror the JavaScript built-ins actually used by the code:
String.prototype.split with a one-character separator, trim, toUpperCase,
includes, Number(...) on plain decimal literals, the boolean-or defaulting
idiom `x || d`, and first-match association-list access for objects and
Maps.  They are written with structural recursion so that concrete
instances reduce inside the kernel. -/

def splitCharAux (c : Char) : List Char → List Char → List (List Char)
  | [], cur => [cur.reverse]
  | x :: xs, cur =>
    if x = c then cur.reverse :: splitCharAux c xs []
    else splitCharAux c xs (x :: cur)

/-- JS String.prototype.split with a single-character separator. -/
def splitChar (c : Char) (s : String) : List String :=
  (splitCharAux c s.toList []).map (fun cs => String.mk cs)

def isJsWS (c : Char) : Bool :=
  c = ' ' || c = '\t' || c = '\n' || c = '\r'

/-- JS String.prototype.trim (on the whitespace the devices can send). -/
def trimL (s : String) : String :=
  String.mk (((s.toList.dropWhile isJsWS).reverse.dropWhile isJsWS).reverse)

/-- JS String.prototype.toUpperCase on ASCII. -/
def toUpperL (s : String) : String :=
  String.mk (s.toList.map Char.toUpper)

def startsWithL : List Char → List Char → Bool
  | [], _ => true
  | _ :: _, [] => false
  | a :: as, b :: bs => a = b && startsWithL as bs

def containsL (hay needle : List Char) : Bool :=
  startsWithL needle hay ||
    (match hay with
     | [] => false
     | _ :: rest => containsL rest needle)

/-- JS String.prototype.includes. -/
def strIncludes (s sub : String) : Bool :=
  containsL s.toList sub.toList

/-- First-match lookup in an association list: property access on a JS
object, or Map.prototype.get. -/
def lookupA {α : Type} : List (String × α) → String → Option α
  | [], _ => none
  | (k', v') :: rest, k => if k' = k then some v' else lookupA rest k

/-- Overwrite-or-append: assignment of a property on a JS object, or
Map.prototype.set (keys of a JS object are unique, so first-match
replacement is exact). -/
def setA {α : Type} : List (String × α) → String → α → List (String × α)
  | [], k, v => [(k, v)]
  | (k', v') :: rest, k, v =>
    if k' = k then (k, v) :: rest else (k', v') :: setA rest k v

/-- Update the first list entry satisfying a predicate (the document a
findOne would return). -/
def updateFirstBy {α : Type} (p : α → Bool) (f : α → α) : List α → List α
  | [] => []
  | x :: rest => if p x then f x :: rest else x :: updateFirstBy p f rest

/-- The JS defaulting idiom `v || d` for numbers: 0 (and NaN, which the
model does not produce for payload fields) is falsy. -/
def jsOrNum (a : Option Rat) (b : Rat) : Rat :=
  match a with
  | some v => if v = 0 then b else v
  | none => b

/-- The JS defaulting idiom `v || d` for strings: the empty string is
falsy. -/
def jsOrStr (a : Option String) (b : String) : String :=
  match a with
  | some s => if s = "" then b else s
  | none => b

def natVal (s : String) : Nat :=
  s.toList.foldl (fun a c => a * 10 + (c.toNat - 48)) 0

def allDigits (s : String) : Bool :=
  s.toList.all (fun c => c.isDigit) && s ≠ ""

/-- Unsigned decimal numeral: digits with an optional single dot
("12", "12.", ".5").  Returns none on any other shape (what JS turns
into NaN). -/
def parseUnsignedNum (s : String) : Option Rat :=
  match splitChar '.' s with
  | [ip] => if allDigits ip then some (natVal ip) else none
  | [ip, fp] =>
    if (allDigits ip || ip = "") && (allDigits fp || fp = "") && ¬(ip = "" && fp = "") then
      some ((natVal ip : Rat) + (natVal fp : Rat) / ((10 : Rat) ^ fp.length))
    else none
  | _ => none

/-- JS Number(v) for a string: trims, the empty string is 0, an optionally
signed decimal numeral is its value, anything else is NaN (`none`).
Exponent, hexadecimal and Infinity forms are not modelled; no decoder
line in any statement below uses them. -/
def jsNum (s : String) : Option Rat :=
  let t := trimL s
  if t = "" then some 0
  else match t.toList with
    | '-' :: rest => (parseUnsignedNum (String.mk rest)).map (fun q => -q)
    | '+' :: rest => parseUnsignedNum (String.mk rest)
    | _ => parseUnsignedNum t

/-- http.js toNum: Number(v) filtered through Number.isFinite, so NaN
becomes undefined.  The modelled grammar only produces finite values, so
this coincides with jsNum. -/
def toNum (s : String) : Option Rat :=
  jsNum s

/-- toNum applied to parts[i]: an out-of-range index is undefined in JS
and Number(undefined) is NaN, hence none. -/
def toNumIdx (parts : List String) (i : Nat) : Option Rat :=
  match parts.get? i with
  | some s => toNum s
  | none => none

/-! ### Line Decoder (http.js parseUartLine)

One tagged UART CSV line becomes a partial record.  `JField` keeps the
JS distinction between an object key that was never assigned and a key
assigned the value undefined, because parseUartLine assigns
`toNum(...)` results unconditionally once a tag case is entered. -/

abbrev JField (α : Type) : Type := Option (Option α)

/-- Is the field present with a defined value. -/
def jfDefined {α : Type} : JField α → Bool
  | some (some _) => true
  | _ => false

structure UPatch where
  temperature : JField Rat := none
  humidity : JField Rat := none
  heartRate : JField Rat := none
  respiration : JField Rat := none
  hrv : JField Rat := none
  stress : JField Rat := none
deriving Repr, DecidableEq

structure UMetrics where
  mean_rr : JField Rat := none
  sdnn : JField Rat := none
  rmssd : JField Rat := none
  pnn50 : JField Rat := none
  hr_median : JField Rat := none
  rr_tri_index : JField Rat := none
  tin_rmssd : JField Rat := none
  sd1 : JField Rat := none
  sd2 : JField Rat := none
  lf : JField Rat := none
  hf : JField Rat := none
  lfhf : JField Rat := none
  sample_entropy : JField Rat := none
  sd1sd2 : JField Rat := none
  sns_index : JField Rat := none
  pns_index : JField Rat := none
deriving Repr, DecidableEq

structure USignals where
  motion : JField Bool := none
  presence : JField Bool := none
  activity : JField Rat := none
  battery : JField Rat := none
  mic : JField Rat := none
deriving Repr, DecidableEq

structure ParsedLine where
  patch : UPatch
  metrics : UMetrics
  signals : USignals
  raw : String
deriving Repr, DecidableEq

/-- `parts[1] !== undefined ? Number(parts[1]) === 1 : undefined` -/
def boolAtIdx (parts : List String) (i : Nat) : JField Bool :=
  match parts.get? i with
  | some s => some (some (decide (jsNum s = some 1)))
  | none => some none

/-- The switch body of parseUartLine, applied to the already split and
trimmed parts of the line. -/
def parseParts (line : String) (parts : List String) : ParsedLine :=
  let tag := toUpperL (parts.headD "")
  let init : ParsedLine := ⟨{}, {}, {}, line⟩
  if tag = "HRV_DATA" then
    if parts.length ≥ 17 then
      let m : UMetrics :=
        { mean_rr := some (toNumIdx parts 1)
          sdnn := some (toNumIdx parts 2)
          rmssd := some (toNumIdx parts 3)
          pnn50 := some (toNumIdx parts 4)
          hr_median := some (toNumIdx parts 5)
          rr_tri_index := some (toNumIdx parts 6)
          tin_rmssd := some (toNumIdx parts 7)
          sd1 := some (toNumIdx parts 8)
          sd2 := some (toNumIdx parts 9)
          lf := some (toNumIdx parts 10)
          hf := some (toNumIdx parts 11)
          lfhf := some (toNumIdx parts 12)
          sample_entropy := some (toNumIdx parts 13)
          sd1sd2 := some (toNumIdx parts 14)
          sns_index := some (toNumIdx parts 15)
          pns_index := some (toNumIdx parts 16) }
      -- if (metrics.rmssd !== undefined) patch.hrv = metrics.rmssd
      let hrvP : JField Rat :=
        match toNumIdx parts 3 with
        | some v => some (some v)
        | none => none
      -- if (metrics.hr_median !== undefined) patch.heartRate = metrics.hr_median
      let hrP : JField Rat :=
        match toNumIdx parts 5 with
        | some v => some (some v)
        | none => none
      { init with metrics := m, patch := { hrv := hrvP, heartRate := hrP } }
    else init
  else if tag = "TEMP_HUM" then
    { init with patch := { temperature := some (toNumIdx parts 1), humidity := some (toNumIdx parts 2) } }
  else if tag = "HR" then
    { init with patch := { heartRate := some (toNumIdx parts 1) } }
  else if tag = "RES" then
    { init with patch := { respiration := some (toNumIdx parts 1) } }
  else if tag = "STRESS" then
    { init with patch := { stress := some (toNumIdx parts 1) } }
  else if tag = "RR" then
    -- metrics is empty at this point, so sample_entropy is set to undefined
    { init with metrics := { sample_entropy := some none } }
  else if tag = "MOTION" then
    { init with signals := { motion := boolAtIdx parts 1 } }
  else if tag = "PRESENCE" then
    { init with signals := { presence := boolAtIdx parts 1 } }
  else if tag = "ACT" || tag = "ACTIVITY" then
    { init with signals := { activity := some (toNumIdx parts 1) } }
  else if tag = "BAT" then
    { init with signals := { battery := some (toNumIdx parts 1) } }
  else if tag = "MIC" then
    { init with signals := { mic := some (toNumIdx parts 1) } }
  else init

/-- http.js parseUartLine.  The input is always a string in this model,
so the guard reduces to the empty string being falsy; the returned raw
field is the original, untrimmed line. -/
def parseUartLine (line : String) : Option ParsedLine :=
  if line = "" then none
  else some (parseParts line ((splitChar ',' (trimL line)).map trimL))

/-- All sixteen heart-rate-variability metric-bag entries are present
with a defined numeric value. -/
def hrvPopulated (m : UMetrics) : Bool :=
  jfDefined m.mean_rr && jfDefined m.sdnn && jfDefined m.rmssd &&
  jfDefined m.pnn50 && jfDefined m.hr_median && jfDefined m.rr_tri_index &&
  jfDefined m.tin_rmssd && jfDefined m.sd1 && jfDefined m.sd2 &&
  jfDefined m.lf && jfDefined m.hf && jfDefined m.lfhf &&
  jfDefined m.sample_entropy && jfDefined m.sd1sd2 && jfDefined m.sns_index &&
  jfDefined m.pns_index

/-! ### Inbound payload and the base record

The JSON body of a health or sleep message.  Numeric top-level entries
live in the open association list `fields` (the rules loop and the extra
metric allow-list read them by dynamic key), the nested objects get their
own structures.  An absent optional field is none. -/

structure SignalsIn where
  motion : Option Rat := none
  presence : Option Rat := none
  battery : Option Rat := none
  activity : Option Rat := none
  mic : Option Rat := none
  rrIntervals : Option (List Rat) := none
  rawWaveform : Option (List Rat) := none
deriving Repr, DecidableEq

structure Payload where
  fields : List (String × Rat) := []
  metrics : List (String × Rat) := []
  signals : Option SignalsIn := none
  raw : Option String := none
  line : Option String := none
  lines : Option (List String) := none
  sleepQuality : Option String := none
  duration : Option Rat := none
deriving Repr, DecidableEq

/-- Top-level numeric field access: newData[key]. -/
def fld (d : Payload) (k : String) : Option Rat :=
  lookupA d.fields k

/-- The signals object of the base record: each flag is
`newData.signals?.x ?? null` (none models null) and each sequence is
`newData.signals?.xs || []`. -/
structure SignalsOut where
  motion : Option Rat := none
  presence : Option Rat := none
  battery : Option Rat := none
  activity : Option Rat := none
  mic : Option Rat := none
  rrIntervals : List Rat := []
  rawWaveform : List Rat := []
deriving Repr, DecidableEq

/-- The base document both ingestion paths build before decoding lines.
Every flat vital defaults to 0 through `||`; raw is `data.raw || ` the
empty object, modelled as none when absent or falsy. -/
structure BaseRec where
  deviceId : String
  timestamp : Nat
  temperature : Rat
  humidity : Rat
  iaq : Rat
  eco2 : Rat
  tvoc : Rat
  etoh : Rat
  hrv : Rat
  stress : Rat
  respiration : Rat
  heartRate : Rat
  metrics : List (String × Rat)
  signals : SignalsOut
  raw : Option String
deriving Repr, DecidableEq

def buildBase (deviceId : String) (now : Nat) (d : Payload) : BaseRec :=
  { deviceId := deviceId
    timestamp := now
    temperature := jsOrNum (fld d "temperature") 0
    humidity := jsOrNum (fld d "humidity") 0
    iaq := jsOrNum (fld d "iaq") 0
    eco2 := jsOrNum (fld d "eco2") 0
    tvoc := jsOrNum (fld d "tvoc") 0
    etoh := jsOrNum (fld d "etoh") 0
    hrv := jsOrNum (fld d "hrv") 0
    stress := jsOrNum (fld d "stress") 0
    respiration := jsOrNum (fld d "resp") (jsOrNum (fld d "respiration") 0)
    heartRate := jsOrNum (fld d "hr") (jsOrNum (fld d "heartRate") 0)
    metrics := d.metrics
    signals :=
      { motion := d.signals.bind (fun s => s.motion)
        presence := d.signals.bind (fun s => s.presence)
        battery := d.signals.bind (fun s => s.battery)
        activity := d.signals.bind (fun s => s.activity)
        mic := d.signals.bind (fun s => s.mic)
        rrIntervals := (d.signals.bind (fun s => s.rrIntervals)).getD []
        rawWaveform := (d.signals.bind (fun s => s.rawWaveform)).getD [] }
    raw := match d.raw with
      | some s => if s = "" then none else some s
      | none => none }

/-! ### Rule Table and Presence/Change Tracker -/

/-- One entry of config/metricSpec for a metric name: optional bounds and
a dedupe mode (the code only distinguishes the string onchange). -/
structure MRule where
  min : Option Rat := none
  max : Option Rat := none
  mode : Option String := none
deriving Repr, DecidableEq

structure TypeSpec where
  params : List (String × MRule) := []
deriving Repr, DecidableEq

/-- The static SPEC table, keyed by device type.  Its concrete content
lives in config/metricSpec and is irrelevant to the statements below,
which quantify over it. -/
abbrev SpecTable : Type := List (String × TypeSpec)

/-- `SPEC[device.deviceType]?.params || ` the empty object. -/
def rulesFor (spec : SpecTable) (deviceType : String) : List (String × MRule) :=
  match lookupA spec deviceType with
  | some t => t.params
  | none => []

/-- Per-device entry of the process-local presenceState map (declared in
deviceManagementController.js and used by the MQTT message handler):
last observed presence flag, defaulting to 1, and the last accepted value
per tracked metric. -/
structure TrackerState where
  lastPresence : Rat := 1
  lastValues : List (String × Rat) := []
deriving Repr, DecidableEq

/-- base[key] for the keys of the base object holding a number.  The
remaining base keys (deviceId, timestamp, metrics, signals, raw) hold
non-numeric values; rule keys are metric names, so those keys are out of
the modelled value domain and yield none here. -/
def baseNumField (b : BaseRec) : String → Option Rat
  | "temperature" => some b.temperature
  | "humidity" => some b.humidity
  | "iaq" => some b.iaq
  | "eco2" => some b.eco2
  | "tvoc" => some b.tvoc
  | "etoh" => some b.etoh
  | "hrv" => some b.hrv
  | "stress" => some b.stress
  | "respiration" => some b.respiration
  | "heartRate" => some b.heartRate
  | _ => none

/-- `newData[key] ?? base[key]` -/
def ruleValue (d : Payload) (b : BaseRec) (k : String) : Option Rat :=
  match fld d k with
  | some v => some v
  | none => baseNumField b k

/-- Accumulator of the rules loop: the violations and changes arrays and
the mutable tracker entry. -/
structure RuleAcc where
  violations : List String := []
  changes : List String := []
  st : TrackerState
deriving Repr, DecidableEq

/-- One iteration of `for (const [key, rule] of Object.entries(rules))`:
a null value is skipped; bound violations are recorded first; then, in
onchange mode, an unchanged value skips the rest of the iteration;
otherwise the key is pushed on changes and the tracker baseline for it is
set, also when a bound was just violated. -/
def ruleStep (d : Payload) (b : BaseRec) (acc : RuleAcc) (kr : String × MRule) : RuleAcc :=
  match ruleValue d b kr.1 with
  | none => acc
  | some value =>
    let v1 := acc.violations ++
      (match kr.2.min with
       | some mn => if value < mn then [kr.1 ++ "<min"] else []
       | none => [])
    let v2 := v1 ++
      (match kr.2.max with
       | some mx => if mx < value then [kr.1 ++ ">max"] else []
       | none => [])
    if kr.2.mode = some "onchange" ∧ lookupA acc.st.lastValues kr.1 = some value then
      { acc with violations := v2 }
    else
      { violations := v2
        changes := acc.changes ++ [kr.1]
        st := { acc.st with lastValues := setA acc.st.lastValues kr.1 value } }

/-- The whole rules loop of the MQTT health branch. -/
def ruleStage (rules : List (String × MRule)) (d : Payload) (b : BaseRec)
    (st : TrackerState) : RuleAcc :=
  rules.foldl (ruleStep d b) ⟨[], [], st⟩

/-! ### UART line folding and the persisted record -/

/-- Later lines override earlier ones on key collision
(Object.assign). -/
def jfOv {α : Type} (a b : JField α) : JField α :=
  match b with
  | some x => some x
  | none => a

def mergeUPatch (a b : UPatch) : UPatch :=
  { temperature := jfOv a.temperature b.temperature
    humidity := jfOv a.humidity b.humidity
    heartRate := jfOv a.heartRate b.heartRate
    respiration := jfOv a.respiration b.respiration
    hrv := jfOv a.hrv b.hrv
    stress := jfOv a.stress b.stress }

def mergeUMetrics (a b : UMetrics) : UMetrics :=
  { mean_rr := jfOv a.mean_rr b.mean_rr
    sdnn := jfOv a.sdnn b.sdnn
    rmssd := jfOv a.rmssd b.rmssd
    pnn50 := jfOv a.pnn50 b.pnn50
    hr_median := jfOv a.hr_median b.hr_median
    rr_tri_index := jfOv a.rr_tri_index b.rr_tri_index
    tin_rmssd := jfOv a.tin_rmssd b.tin_rmssd
    sd1 := jfOv a.sd1 b.sd1
    sd2 := jfOv a.sd2 b.sd2
    lf := jfOv a.lf b.lf
    hf := jfOv a.hf b.hf
    lfhf := jfOv a.lfhf b.lfhf
    sample_entropy := jfOv a.sample_entropy b.sample_entropy
    sd1sd2 := jfOv a.sd1sd2 b.sd1sd2
    sns_index := jfOv a.sns_index b.sns_index
    pns_index := jfOv a.pns_index b.pns_index }

def mergeUSignals (a b : USignals) : USignals :=
  { motion := jfOv a.motion b.motion
    presence := jfOv a.presence b.presence
    activity := jfOv a.activity b.activity
    battery := jfOv a.battery b.battery
    mic := jfOv a.mic b.mic }

/-- `Array.isArray(data.lines) ? data.lines : (data.line ? [data.line] : [])` -/
def linesOf (d : Payload) : List String :=
  match d.lines with
  | some ls => ls
  | none =>
    match d.line with
    | some l => if l = "" then [] else [l]
    | none => []

structure Merged where
  patch : UPatch := {}
  metrics : UMetrics := {}
  signals : USignals := {}
  raws : List String := []
deriving Repr, DecidableEq

/-- The decode-and-merge loop shared by both ingestion paths. -/
def foldLines (ls : List String) : Merged :=
  ls.foldl
    (fun m ln =>
      match parseUartLine ln with
      | none => m
      | some p =>
        { patch := mergeUPatch m.patch p.patch
          metrics := mergeUMetrics m.metrics p.metrics
          signals := mergeUSignals m.signals p.signals
          raws := m.raws ++ [p.raw] })
    {}

/-- The explicit allow-list of extra flat metric keys of the MQTT health
branch, in source order. -/
def extraKeys : List String :=
  ["nn50", "sdsd", "mxdmn", "mo", "amo", "stress_ind",
   "lf_pow", "hf_pow", "lf_hf_ratio", "bat", "mean_rr", "mean_hr",
   "snore_num", "snore_freq", "pressure", "bvoc", "co2", "gas_percent",
   "HRrest", "HRmax", "VO2max", "LactateThres", "TemperatureSkin",
   "TemperatureEnv", "TemperatureCore", "ECG", "Barometer", "Accel",
   "Gyro", "Magneto", "Steps", "Calories", "Distance", "BloodPressureSys",
   "BloodPressureDia", "MuscleOxygenation", "GSR", "SleepStage",
   "SleepQuality", "PostureFront", "PostureSide", "Fall", "BMI",
   "BodyIndex", "ABSI", "Sports", "Start", "End", "NormalSinusRhythm",
   "CHFAnalysis", "Diabetes", "TMT", "sdnn", "rmssd", "pnn50", "hr_median",
   "rr_tri_index", "tin_rmssd", "sd1", "sd2", "lf", "hf", "lfhf",
   "sample_entropy", "sd1sd2", "sns_index", "pns_index"]

/-- `if (newData[k] !== undefined) extraMetrics[k] = newData[k]` over the
allow-list. -/
def extraMetrics (d : Payload) : List (String × Rat) :=
  extraKeys.foldl
    (fun acc k =>
      match fld d k with
      | some v => acc ++ [(k, v)]
      | none => acc)
    []

/-- The merged UART metric object as key/value entries in literal order;
a value can be undefined (inner none) when its field failed to parse. -/
def uMetricsEntries (m : UMetrics) : List (String × Option Rat) :=
  (match m.mean_rr with | some v => [("mean_rr", v)] | none => []) ++
  (match m.sdnn with | some v => [("sdnn", v)] | none => []) ++
  (match m.rmssd with | some v => [("rmssd", v)] | none => []) ++
  (match m.pnn50 with | some v => [("pnn50", v)] | none => []) ++
  (match m.hr_median with | some v => [("hr_median", v)] | none => []) ++
  (match m.rr_tri_index with | some v => [("rr_tri_index", v)] | none => []) ++
  (match m.tin_rmssd with | some v => [("tin_rmssd", v)] | none => []) ++
  (match m.sd1 with | some v => [("sd1", v)] | none => []) ++
  (match m.sd2 with | some v => [("sd2", v)] | none => []) ++
  (match m.lf with | some v => [("lf", v)] | none => []) ++
  (match m.hf with | some v => [("hf", v)] | none => []) ++
  (match m.lfhf with | some v => [("lfhf", v)] | none => []) ++
  (match m.sample_entropy with | some v => [("sample_entropy", v)] | none => []) ++
  (match m.sd1sd2 with | some v => [("sd1sd2", v)] | none => []) ++
  (match m.sns_index with | some v => [("sns_index", v)] | none => []) ++
  (match m.pns_index with | some v => [("pns_index", v)] | none => [])

/-- JS object spread of a second key/value list over a first: existing
keys keep their position and take the new value, new keys are
appended. -/
def jsSpreadO (a b : List (String × Option Rat)) : List (String × Option Rat) :=
  b.foldl (fun acc kv => setA acc kv.1 kv.2) a

def definedEntries (l : List (String × Rat)) : List (String × Option Rat) :=
  l.map (fun kv => (kv.1, some kv.2))

/-- The signals subdocument of a persisted record.  The MQTT branch
spreads the raw `newData.signals` object, the request branch spreads the
normalized `base.signals`; in both cases the UART signal patch is spread
on top.  The spread is kept as its components here: no statement below
reads a persisted signals value. -/
structure RecSignals where
  fromPayload : Option (Option SignalsIn) := none
  fromBase : Option SignalsOut := none
  patch : USignals := {}
deriving Repr, DecidableEq

/-- A persisted HealthData document.  A flat vital is the base value
unless the UART patch assigned the key, in which case it is the patch
value, which can be undefined (inner none). -/
structure HealthRec where
  deviceId : String
  timestamp : Nat
  temperature : Option Rat
  humidity : Option Rat
  iaq : Option Rat
  eco2 : Option Rat
  tvoc : Option Rat
  etoh : Option Rat
  hrv : Option Rat
  stress : Option Rat
  respiration : Option Rat
  heartRate : Option Rat
  metrics : List (String × Option Rat)
  signals : RecSignals
  raw : Option String
deriving Repr, DecidableEq

/-- `{...base, ...mergedPatch}` on one flat field. -/
def patched (b : Rat) (p : JField Rat) : Option Rat :=
  match p with
  | some v => v
  | none => some b

/-- `raws.length ? raws.join("\n") : base.raw` -/
def recordRaw (raws : List String) (baseRaw : Option String) : Option String :=
  match raws with
  | [] => baseRaw
  | _ => some (String.intercalate "\n" raws)

/-- The document the MQTT health branch saves: patched base, metrics =
`{...(newData.metrics || {}), ...mergedMetrics, ...extraMetrics}`,
signals = `{...(newData.signals || {}), ...mergedSignals}`. -/
def mkHealthRecMqtt (b : BaseRec) (d : Payload) (m : Merged) : HealthRec :=
  { deviceId := b.deviceId
    timestamp := b.timestamp
    temperature := patched b.temperature m.patch.temperature
    humidity := patched b.humidity m.patch.humidity
    iaq := some b.iaq
    eco2 := some b.eco2
    tvoc := some b.tvoc
    etoh := some b.etoh
    hrv := patched b.hrv m.patch.hrv
    stress := patched b.stress m.patch.stress
    respiration := patched b.respiration m.patch.respiration
    heartRate := patched b.heartRate m.patch.heartRate
    metrics := jsSpreadO (jsSpreadO (definedEntries d.metrics) (uMetricsEntries m.metrics))
      (definedEntries (extraMetrics d))
    signals := { fromPayload := some d.signals, patch := m.signals }
    raw := recordRaw m.raws b.raw }

/-- The document the request-based health branch saves: patched base,
metrics = `{...base.metrics, ...mergedMetrics}` (no extra allow-list on
this path), signals = `{...base.signals, ...mergedSignals}`. -/
def mkHealthRecHttp (b : BaseRec) (m : Merged) : HealthRec :=
  { deviceId := b.deviceId
    timestamp := b.timestamp
    temperature := patched b.temperature m.patch.temperature
    humidity := patched b.humidity m.patch.humidity
    iaq := some b.iaq
    eco2 := some b.eco2
    tvoc := some b.tvoc
    etoh := some b.etoh
    hrv := patched b.hrv m.patch.hrv
    stress := patched b.stress m.patch.stress
    respiration := patched b.respiration m.patch.respiration
    heartRate := patched b.heartRate m.patch.heartRate
    metrics := jsSpreadO (definedEntries b.metrics) (uMetricsEntries m.metrics)
    signals := { fromBase := some b.signals, patch := m.signals }
    raw := recordRaw m.raws b.raw }

structure SleepRec where
  deviceId : String
  timestamp : Nat
  sleepQuality : String
  duration : Rat
deriving Repr, DecidableEq

def mkSleepRec (deviceId : String) (now : Nat) (d : Payload) : SleepRec :=
  { deviceId := deviceId
    timestamp := now
    sleepQuality := jsOrStr d.sleepQuality "Unknown"
    duration := jsOrNum d.duration 0 }

/-! ### Device collection, users, profiles and the system state

A Device document (models/Device.js), restricted to the fields the
embedded handlers touch.  The Mongo ObjectId of a device, of its user and
of its profile are modelled by their stable external identifiers: the
deviceId carries a unique index in the schema, user and profile ids are
Mongo primary keys. -/

structure DeviceDoc where
  deviceId : String
  deviceType : String := ""
  manufacturer : String := ""
  status : String := "inactive"
  profileId : Option String := none
  userId : Option String := none
  lastActiveAt : Option Nat := none
deriving Repr, DecidableEq

structure AppUser where
  id : String
  activeDevice : Option String := none
  activeDevices : List String := []
deriving Repr, DecidableEq

structure ProfileDoc where
  id : String
  identifier : Option String := none
deriving Repr, DecidableEq

/-- The collections and process state the embedded handlers share. -/
structure Sys where
  devices : List DeviceDoc := []
  users : List AppUser := []
  profiles : List ProfileDoc := []
  presenceState : List (String × TrackerState) := []
  health : List HealthRec := []
  sleep : List SleepRec := []
deriving Repr, DecidableEq

/-- Device.findOne on deviceId. -/
def findDevice (ds : List DeviceDoc) (id : String) : Option DeviceDoc :=
  ds.find? (fun d => d.deviceId = id)

/-- findByIdAndUpdate on the device a findOne returned: update the first
match. -/
def updateDevice (ds : List DeviceDoc) (id : String) (f : DeviceDoc → DeviceDoc) :
    List DeviceDoc :=
  updateFirstBy (fun d => d.deviceId = id) f ds

/-- topic.split("/")[1], where a missing or empty part is falsy and makes
the handler return. -/
def topicDeviceId (topic : String) : Option String :=
  match (splitChar '/' topic).get? 1 with
  | some s => if s = "" then none else some s
  | none => none

/-- status active and lastActiveAt refresh on telemetry arrival. -/
def markActive (now : Nat) (d : DeviceDoc) : DeviceDoc :=
  { d with status := "active", lastActiveAt := some now }

/-- The retraction the presence drop triggers: HealthData.deleteMany on
this device with timestamp at or after now minus 12000 milliseconds. -/
def retractWindow (health : List HealthRec) (deviceId : String) (now : Nat) :
    List HealthRec :=
  health.filter (fun r => decide (¬(r.deviceId = deviceId ∧ now - 12000 ≤ r.timestamp)))

/-- The health branch of the MQTT message handler, after the device
status update.  device? is the result of the findOne; when it is none,
reading deviceType off the null device throws at the start of the rule
stage, the surrounding try/catch swallows the error, and the retraction
and tracker mutations already made are kept. -/
def onHealth (spec : SpecTable) (sys1 : Sys) (device? : Option DeviceDoc)
    (deviceId : String) (now : Nat) (d : Payload) : Sys :=
  let base := buildBase deviceId now d
  -- const presence = Number(base.signals.presence ?? 1)
  let presence := base.signals.presence.getD 1
  let st0 := (lookupA sys1.presenceState deviceId).getD {}
  -- presence 1 to 0: retract the trailing 12 seconds
  let health1 :=
    if st0.lastPresence = (1 : Rat) ∧ presence = (0 : Rat) then
      retractWindow sys1.health deviceId now
    else sys1.health
  let st1 := { st0 with lastPresence := presence }
  let pm1 := setA sys1.presenceState deviceId st1
  let sys2 := { sys1 with health := health1, presenceState := pm1 }
  if presence = (0 : Rat) then sys2
  else
    match device? with
    | none => sys2
    | some device =>
      let acc := ruleStage (rulesFor spec device.deviceType) d base st1
      let sys3 := { sys2 with presenceState := setA pm1 deviceId acc.st }
      if acc.violations ≠ [] then sys3
      else if acc.changes = [] then sys3
      else
        let m := foldLines (linesOf d)
        { sys3 with health := mkHealthRecMqtt base d m :: sys3.health }

/-- The MQTT message handler (client.on message).  now is the server
clock in milliseconds.  The device found by the findOne is marked active
with a fresh lastActiveAt before the topic is even inspected. -/
def onMessage (spec : SpecTable) (sys : Sys) (now : Nat) (topic : String)
    (d : Payload) : Sys :=
  match topicDeviceId topic with
  | none => sys
  | some deviceId =>
    let device? := findDevice sys.devices deviceId
    let devices1 :=
      match device? with
      | some _ => updateDevice sys.devices deviceId (markActive now)
      | none => sys.devices
    let sys1 := { sys with devices := devices1 }
    if strIncludes topic "/health" then
      onHealth spec sys1 device? deviceId now d
    else if strIncludes topic "/sleep" then
      { sys1 with sleep := mkSleepRec deviceId now d :: sys1.sleep }
    else sys1

/-- Responses of POST /ingest (routes/http.js). -/
inductive HttpRes
  | missingFields
  | deviceNotFound
  | healthSaved
  | sleepSaved
  | invalidType
deriving Repr, DecidableEq

/-- POST /ingest: body {deviceId, type, data}.  The health branch builds
the base record, folds the optional UART lines in and saves; it runs no
presence gating and no rule evaluation. -/
def httpIngest (sys : Sys) (now : Nat) (deviceId? : Option String)
    (type? : Option String) (data? : Option Payload) : HttpRes × Sys :=
  match deviceId?, type?, data? with
  | some deviceId, some ty, some d =>
    if deviceId = "" ∨ ty = "" then (.missingFields, sys)
    else
      match findDevice sys.devices deviceId with
      | none => (.deviceNotFound, sys)
      | some _ =>
        let sys1 := { sys with devices := updateDevice sys.devices deviceId (markActive now) }
        if ty = "health" then
          let base := buildBase deviceId now d
          let m := foldLines (linesOf d)
          (.healthSaved, { sys1 with health := mkHealthRecHttp base m :: sys1.health })
        else if ty = "sleep" then
          (.sleepSaved, { sys1 with sleep := mkSleepRec deviceId now d :: sys1.sleep })
        else (.invalidType, sys1)
  | _, _, _ => (.missingFields, sys)

/-! ### Device Activation Manager

PUT /activate/:deviceId?profileId=... and the related deactivation
endpoint (deviceManagementController.setInactiveDevice). -/

inductive ActRes
  | missingProfile
  | notFound
  | conflict (msg : String)
  | ok (msg : String)
deriving Repr, DecidableEq

def conflictMsg (deviceId ident : String) : String :=
  "Device " ++ deviceId ++ " is already active on profile \"" ++ ident ++ "\""

def activatedMsg (deviceId ident : String) : String :=
  "Device " ++ deviceId ++ " activated on profile \"" ++ ident ++ "\""

/-- `profile?.identifier || pid`: the profile identifier when the profile
document exists and names one, the raw id otherwise. -/
def profileIdent (profiles : List ProfileDoc) (pid : String) : String :=
  match profiles.find? (fun p => p.id = pid) with
  | some p => jsOrStr p.identifier pid
  | none => pid

/-- The synchronous conflict test the activate route runs on the device
snapshot it has read: active under a different profile than the one
requested. -/
def conflictCheck (device : DeviceDoc) (profileId : String) : Bool :=
  device.status = "active" &&
    (match device.profileId with
     | some cur => decide (cur ≠ profileId)
     | none => false)

/-- `Device.updateMany({profileId}, {$set: {status: "inactive"}})` -/
def deactForProfile (profileId : String) (d : DeviceDoc) : DeviceDoc :=
  if d.profileId = some profileId then { d with status := "inactive" } else d

/-- One await-separated phase of the activate route: deactivate every
device bound to the profile. -/
def actDeactivateAll (sys : Sys) (profileId : String) : Sys :=
  { sys with devices := sys.devices.map (deactForProfile profileId) }

def setActiveDev (profileId : String) (now : Nat) (d : DeviceDoc) : DeviceDoc :=
  { d with status := "active", profileId := some profileId, lastActiveAt := some now }

/-- One await-separated phase of the activate route: device.save() with
status active, the requested profile binding and a fresh
lastActiveAt. -/
def actSaveActive (sys : Sys) (deviceId profileId : String) (now : Nat) : Sys :=
  { sys with devices := updateDevice sys.devices deviceId (setActiveDev profileId now) }

/-- One await-separated phase of the activate route: point the owning
user at this device as the current active device. -/
def actSetUserPtr (sys : Sys) (userId? : Option String) (deviceId : String) : Sys :=
  match userId? with
  | some uid =>
    let users1 := updateFirstBy (fun u => u.id = uid)
      (fun u => { u with activeDevice := some deviceId }) sys.users
    { sys with users := users1 }
  | none => sys

/-- The write sequence of a non-conflicting activation, as the
composition of its three await-separated phases. -/
def activateGo (sys : Sys) (device : DeviceDoc) (deviceId profileId : String)
    (now : Nat) : ActRes × Sys :=
  (.ok (activatedMsg deviceId (profileIdent sys.profiles profileId)),
   actSetUserPtr (actSaveActive (actDeactivateAll sys profileId) deviceId profileId now)
     device.userId deviceId)

/-- PUT /activate/:deviceId?profileId=...  A missing profileId is a 400,
an unknown device a 404; a device already active under a different
profile is a 409 whose message carries that profile identifier and
leaves every collection untouched; otherwise every device of the profile
is deactivated, the target saved active and the owning user pointer
updated. -/
def activate (sys : Sys) (deviceId : String) (profileId? : Option String)
    (now : Nat) : ActRes × Sys :=
  match profileId? with
  | none => (.missingProfile, sys)
  | some profileId =>
    if profileId = "" then (.missingProfile, sys)
    else
      match findDevice sys.devices deviceId with
      | none => (.notFound, sys)
      | some device =>
        if conflictCheck device profileId then
          match device.profileId with
          | some cur =>
            (.conflict (conflictMsg deviceId (profileIdent sys.profiles cur)), sys)
          | none => (.notFound, sys)  -- unreachable: conflictCheck needs a binding
        else activateGo sys device deviceId profileId now

inductive DeactRes
  | missingId
  | userNotFound
  | deviceNotFound
  | ok (msg : String)
deriving Repr, DecidableEq

/-- deviceManagementController.setInactiveDevice.  The requesting user
must merely exist; the device named in the path is set inactive by
findOneAndUpdate with no ownership test, and is then filtered out of the
requesting user's activeDevices collection. -/
def setInactiveDevice (sys : Sys) (reqUserId : String) (deviceId? : Option String) :
    DeactRes × Sys :=
  match deviceId? with
  | none => (.missingId, sys)
  | some deviceId =>
    if deviceId = "" then (.missingId, sys)
    else
      match sys.users.find? (fun u => u.id = reqUserId) with
      | none => (.userNotFound, sys)
      | some _ =>
        match findDevice sys.devices deviceId with
        | none => (.deviceNotFound, sys)
        | some device =>
          let devices1 := updateDevice sys.devices deviceId
            (fun d => { d with status := "inactive" })
          let users1 := updateFirstBy (fun u => u.id = reqUserId)
            (fun u => { u with activeDevices :=
              u.activeDevices.filter (fun i => decide (i ≠ device.deviceId)) }) sys.users
          (.ok ("Device " ++ deviceId ++ " set as inactive"),
           { sys with devices := devices1, users := users1 })

/-! ### Concrete fixtures

Small systems, payloads and schedules the witnesses and counterexamples
below evaluate the model on. -/

def exDevice : DeviceDoc := { deviceId := "0001-AABBCCDDEEFF", deviceType := "bcg" }

/-- A rule table entry for the bcg device type: heartRate bounded to
[30, 220] with the default always-store mode. -/
def exSpec : SpecTable :=
  [("bcg", { params := [("heartRate", { min := some 30, max := some 220 })] })]

/-- heartRate 72 with the presence signal raised. -/
def exPayloadOk : Payload :=
  { fields := [("heartRate", 72)], signals := some { presence := some 1 } }

/-- heartRate 72 with the presence signal at 0. -/
def exPayloadAbsent : Payload :=
  { fields := [("heartRate", 72)], signals := some { presence := some 0 } }

/-- heartRate 25: below the bcg minimum of 30. -/
def exPayloadLow : Payload :=
  { fields := [("heartRate", 25)], signals := some { presence := some 1 } }

def exSys : Sys := { devices := [exDevice] }

/-- A record persisted at t = 15000 for the example device. -/
def exStoredRec : HealthRec :=
  mkHealthRecMqtt (buildBase "0001-AABBCCDDEEFF" 15000 exPayloadOk) exPayloadOk {}

/-- The example device with one persisted record and a tracker that has
last seen presence 1. -/
def exSysStored : Sys :=
  { devices := [exDevice]
    health := [exStoredRec]
    presenceState := [("0001-AABBCCDDEEFF", { lastPresence := 1 })] }

/-- A well-formed 16-field heart-rate-variability line. -/
def exHrvLine : String :=
  "HRV_DATA,800,50,42,10,72,5,30,20,35,100,80,2,3,4,5,6"

def exHrvParts : List String :=
  (splitChar ',' (trimL exHrvLine)).map trimL

/-- A heart-rate-variability line with only two fields after the tag. -/
def exHrvShort : String := "HRV_DATA,800,50"

def exHrvShortParts : List String :=
  (splitChar ',' (trimL exHrvShort)).map trimL

/-- Devices and owners for the activation scenarios. -/
def actDevA : DeviceDoc := { deviceId := "A", userId := some "uA" }

def actDevB : DeviceDoc := { deviceId := "B", userId := some "uB" }

def actSys : Sys :=
  { devices := [actDevA, actDevB], users := [{ id := "uA" }, { id := "uB" }] }

/-- A device already active under profile P, whose profile document names
the identifier Alice. -/
def conflSys : Sys :=
  { devices := [{ deviceId := "A", status := "active", profileId := some "P", userId := some "uA" }]
    profiles := [{ id := "P", identifier := some "Alice" }] }

/-- A device owned by user V, while user U issues the deactivation. -/
def otherOwnerSys : Sys :=
  { devices := [{ deviceId := "D", status := "active", userId := some "V" }]
    users := [{ id := "U", activeDevices := ["D"] }, { id := "V", activeDevices := ["D"] }] }

/-- The interleaving of two concurrent activations of A and B for
profile X in which both read before either writes: both conflict checks
run against the initial snapshots, then the two deactivate-all and
save-active phases alternate.  Each phase boundary is an await point of
the activate route, so this schedule is one the event loop admits. -/
def raceResult : Sys :=
  let s1 := actDeactivateAll actSys "X"
  let s2 := actDeactivateAll s1 "X"
  let s3 := actSetUserPtr (actSaveActive s2 "A" "X" 5) actDevA.userId "A"
  let s4 := actSetUserPtr (actSaveActive s3 "B" "X" 6) actDevB.userId "B"
  s4

/-- How many devices are active for the given profile. -/
def activeCountFor (sys : Sys) (profileId : String) : Nat :=
  (sys.devices.filter
    (fun dv => decide (dv.status = "active" ∧ dv.profileId = some profileId))).length

/-! ### Helper lemmas: association lists and first-match updates -/

theorem lookupA_setA_self {α : Type} (l : List (String × α)) (k : String) (v : α) :
    lookupA (setA l k v) k = some v := by
  induction l with
  | nil => simp [setA, lookupA]
  | cons p rest ih =>
    obtain ⟨k', v'⟩ := p
    by_cases h : k' = k
    · simp [setA, h, lookupA]
    · simp [setA, h, lookupA, ih]

theorem lookupA_setA_ne {α : Type} (l : List (String × α)) (k' k : String) (v : α)
    (h : k' ≠ k) : lookupA (setA l k' v) k = lookupA l k := by
  induction l with
  | nil => simp [setA, lookupA, h]
  | cons p rest ih =>
    obtain ⟨k0, v0⟩ := p
    by_cases h0 : k0 = k'
    · simp [setA, h0, lookupA, h, Ne.symm h]
    · by_cases h1 : k0 = k
      · simp [setA, h0, lookupA, h1, Ne.symm h]
      · simp [setA, h0, lookupA, h1, ih]

theorem findDevice_updateDevice_self (ds : List DeviceDoc) (id : String)
    (f : DeviceDoc → DeviceDoc) (hf : ∀ d, (f d).deviceId = d.deviceId) :
    findDevice (updateDevice ds id f) id = (findDevice ds id).map f := by
  induction ds with
  | nil => rfl
  | cons d rest ih =>
    by_cases h : d.deviceId = id
    · simp [findDevice, updateDevice, updateFirstBy, h, List.find?, hf]
    · simp only [findDevice, updateDevice, updateFirstBy] at ih ⊢
      simp [h, List.find?, ih]

theorem findDevice_updateDevice_ne (ds : List DeviceDoc) (id id' : String)
    (f : DeviceDoc → DeviceDoc) (hf : ∀ d, (f d).deviceId = d.deviceId)
    (hne : id' ≠ id) :
    findDevice (updateDevice ds id' f) id = findDevice ds id := by
  induction ds with
  | nil => rfl
  | cons d rest ih =>
    by_cases h : d.deviceId = id'
    · simp [findDevice, updateDevice, updateFirstBy, h, List.find?, hf, hne]
    · simp only [findDevice, updateDevice, updateFirstBy] at ih ⊢
      by_cases h1 : d.deviceId = id
      · simp [h, h1, Ne.symm hne, List.find?]
      · simp [h, h1, List.find?, ih]

theorem updateDevice_map_deviceId (ds : List DeviceDoc) (id : String)
    (f : DeviceDoc → DeviceDoc) (hf : ∀ d, (f d).deviceId = d.deviceId) :
    (updateDevice ds id f).map DeviceDoc.deviceId = ds.map DeviceDoc.deviceId := by
  induction ds with
  | nil => rfl
  | cons d rest ih =>
    by_cases h : d.deviceId = id
    · simp [updateDevice, updateFirstBy, h, hf]
    · simp only [updateDevice, updateFirstBy] at ih ⊢
      simp [h, ih]

/-! ### Helper lemmas: the rules loop -/

/-- A rule is out of range for a value when its min bound exceeds it or
its max bound is below it. -/
def outOfRange (rule : MRule) (v : Rat) : Prop :=
  (∃ mn, rule.min = some mn ∧ v < mn) ∨ (∃ mx, rule.max = some mx ∧ mx < v)

theorem ruleStep_viol_mono (d : Payload) (b : BaseRec) (acc : RuleAcc)
    (kr : String × MRule) (x : String) (hx : x ∈ acc.violations) :
    x ∈ (ruleStep d b acc kr).violations := by
  unfold ruleStep
  cases h : ruleValue d b kr.1 with
  | none => exact hx
  | some v =>
    dsimp only
    split
    · simp [List.mem_append, hx]
    · simp [List.mem_append, hx]

theorem ruleStep_changes_mono (d : Payload) (b : BaseRec) (acc : RuleAcc)
    (kr : String × MRule) (x : String) (hx : x ∈ acc.changes) :
    x ∈ (ruleStep d b acc kr).changes := by
  unfold ruleStep
  cases h : ruleValue d b kr.1 with
  | none => exact hx
  | some v =>
    dsimp only
    split
    · exact hx
    · simp [List.mem_append, hx]

theorem ruleFold_viol_mono (d : Payload) (b : BaseRec)
    (rules : List (String × MRule)) :
    ∀ (acc : RuleAcc) (x : String), x ∈ acc.violations →
      x ∈ (rules.foldl (ruleStep d b) acc).violations := by
  induction rules with
  | nil => intro acc x hx; exact hx
  | cons kr rest ih =>
    intro acc x hx
    exact ih (ruleStep d b acc kr) x (ruleStep_viol_mono d b acc kr x hx)

theorem ruleFold_changes_mono (d : Payload) (b : BaseRec)
    (rules : List (String × MRule)) :
    ∀ (acc : RuleAcc) (x : String), x ∈ acc.changes →
      x ∈ (rules.foldl (ruleStep d b) acc).changes := by
  induction rules with
  | nil => intro acc x hx; exact hx
  | cons kr rest ih =>
    intro acc x hx
    exact ih (ruleStep d b acc kr) x (ruleStep_changes_mono d b acc kr x hx)

theorem ruleStep_lastValues_ne (d : Payload) (b : BaseRec) (acc : RuleAcc)
    (kr : String × MRule) (key : String) (hne : kr.1 ≠ key) :
    lookupA (ruleStep d b acc kr).st.lastValues key = lookupA acc.st.lastValues key := by
  unfold ruleStep
  cases h : ruleValue d b kr.1 with
  | none => rfl
  | some v =>
    dsimp only
    split
    · rfl
    · exact lookupA_setA_ne acc.st.lastValues kr.1 key v hne

theorem ruleFold_lastValues_stable (d : Payload) (b : BaseRec)
    (rules : List (String × MRule)) :
    ∀ (acc : RuleAcc) (key : String), key ∉ rules.map Prod.fst →
      lookupA (rules.foldl (ruleStep d b) acc).st.lastValues key =
        lookupA acc.st.lastValues key := by
  induction rules with
  | nil => intro acc key _; rfl
  | cons kr rest ih =>
    intro acc key hk
    simp only [List.map, List.mem_cons, not_or] at hk
    rw [List.foldl_cons, ih (ruleStep d b acc kr) key hk.2]
    exact ruleStep_lastValues_ne d b acc kr key (fun he => hk.1 he.symm)

/-- One iteration at its own key: when the current value is defined and
differs from the tracked baseline, the key is pushed on changes and the
baseline is overwritten, and a violated bound has pushed its marker. -/
theorem ruleStep_hit (d : Payload) (b : BaseRec) (acc : RuleAcc)
    (key : String) (rule : MRule) (v : Rat)
    (hv : ruleValue d b key = some v)
    (hdiff : lookupA acc.st.lastValues key ≠ some v) :
    key ∈ (ruleStep d b acc (key, rule)).changes ∧
    lookupA (ruleStep d b acc (key, rule)).st.lastValues key = some v ∧
    (outOfRange rule v →
      (key ++ "<min") ∈ (ruleStep d b acc (key, rule)).violations ∨
      (key ++ ">max") ∈ (ruleStep d b acc (key, rule)).violations) := by
  unfold ruleStep
  rw [hv]
  dsimp only
  rw [if_neg (fun hc => hdiff hc.2)]
  refine ⟨by simp, lookupA_setA_self acc.st.lastValues key v, ?_⟩
  rintro (⟨mn, hmn, hlt⟩ | ⟨mx, hmx, hgt⟩)
  · left
    simp [hmn, hlt, List.mem_append]
  · right
    simp [hmx, hgt, List.mem_append]

/-- The whole loop, at a key carrying an out-of-range changed value: the
final accumulator has a violation, counts the key as changed, and its
tracker baseline holds the rejected value. -/
theorem ruleFold_out_of_range (d : Payload) (b : BaseRec) :
    ∀ (rules : List (String × MRule)) (acc : RuleAcc) (key : String)
      (rule : MRule) (v : Rat),
      (rules.map Prod.fst).Nodup → (key, rule) ∈ rules →
      ruleValue d b key = some v →
      lookupA acc.st.lastValues key ≠ some v →
      outOfRange rule v →
      key ∈ (rules.foldl (ruleStep d b) acc).changes ∧
      lookupA (rules.foldl (ruleStep d b) acc).st.lastValues key = some v ∧
      (rules.foldl (ruleStep d b) acc).violations ≠ [] := by
  intro rules
  induction rules with
  | nil => intro acc key rule v _ hmem; exact absurd hmem (List.not_mem_nil _)
  | cons kr rest ih =>
    intro acc key rule v hnd hmem hv hdiff hoor
    rw [List.map_cons, List.nodup_cons] at hnd
    rw [List.foldl_cons]
    rcases List.mem_cons.mp hmem with heq | hrest
    · -- the head entry is the key in question
      cases heq
      have hit := ruleStep_hit d b acc key rule v hv hdiff
      have hkey_not : key ∉ rest.map Prod.fst := hnd.1
      refine ⟨ruleFold_changes_mono d b rest _ key hit.1,
        ?_, ?_⟩
      · rw [ruleFold_lastValues_stable d b rest _ key hkey_not]
        exact hit.2.1
      · rcases hit.2.2 hoor with hm | hm
        · exact List.ne_nil_of_mem (ruleFold_viol_mono d b rest _ _ hm)
        · exact List.ne_nil_of_mem (ruleFold_viol_mono d b rest _ _ hm)
    · -- the key sits further down; the head step does not touch it
      have hk_in : key ∈ rest.map Prod.fst :=
        List.mem_map.mpr ⟨(key, rule), hrest, rfl⟩
      have hne : kr.1 ≠ key := fun he => hnd.1 (he ▸ hk_in)
      have hdiff' : lookupA (ruleStep d b acc kr).st.lastValues key ≠ some v := by
        rw [ruleStep_lastValues_ne d b acc kr key hne]
        exact hdiff
      exact ih (ruleStep d b acc kr) key rule v hnd.2 hrest hv hdiff' hoor

/-! ### Helper lemmas: the MQTT health branch -/

theorem mem_retractWindow (health : List HealthRec) (deviceId : String) (now : Nat)
    (r : HealthRec) (hr : r ∈ retractWindow health deviceId now) :
    r ∈ health ∧ ¬(r.deviceId = deviceId ∧ now - 12000 ≤ r.timestamp) := by
  unfold retractWindow at hr
  obtain ⟨hm, hd⟩ := List.mem_filter.mp hr
  exact ⟨hm, of_decide_eq_true hd⟩

theorem onHealth_devices (spec : SpecTable) (sys1 : Sys) (device? : Option DeviceDoc)
    (dd : String) (now : Nat) (d : Payload) :
    (onHealth spec sys1 device? dd now d).devices = sys1.devices := by
  simp only [onHealth]
  split
  · rfl
  · split
    · rfl
    · split
      · rfl
      · split
        · rfl
        · rfl

theorem mem_onHealth_health (spec : SpecTable) (sys1 : Sys)
    (device? : Option DeviceDoc) (dd : String) (now : Nat) (d : Payload)
    (r : HealthRec) (hr : r ∈ (onHealth spec sys1 device? dd now d).health) :
    r ∈ sys1.health ∨ r.timestamp = now := by
  simp only [onHealth] at hr
  have hsub : ∀ h ∈ (if ((lookupA sys1.presenceState dd).getD {}).lastPresence = (1 : Rat) ∧
      (buildBase dd now d).signals.presence.getD 1 = (0 : Rat) then
        retractWindow sys1.health dd now else sys1.health), h ∈ sys1.health := by
    intro h hh
    split at hh
    · exact (mem_retractWindow sys1.health dd now h hh).1
    · exact hh
  split at hr
  · exact Or.inl (hsub r hr)
  · split at hr
    · exact Or.inl (hsub r hr)
    · split at hr
      · exact Or.inl (hsub r hr)
      · split at hr
        · exact Or.inl (hsub r hr)
        · rcases List.mem_cons.mp hr with heq | hmem
          · right
            rw [heq]
            rfl
          · exact Or.inl (hsub r hmem)

theorem mem_onMessage_health (spec : SpecTable) (sys : Sys) (now : Nat)
    (topic : String) (d : Payload) (r : HealthRec)
    (hr : r ∈ (onMessage spec sys now topic d).health) :
    r ∈ sys.health ∨ r.timestamp = now := by
  simp only [onMessage] at hr
  split at hr
  · exact Or.inl hr
  · split at hr
    · have hres := mem_onHealth_health _ _ _ _ _ _ r hr
      exact hres
    · split at hr
      · exact Or.inl hr
      · exact Or.inl hr

theorem onMessage_devices_found (spec : SpecTable) (sys : Sys) (now : Nat)
    (topic : String) (d : Payload) (dd : String) (dev : DeviceDoc)
    (htopic : topicDeviceId topic = some dd)
    (hdev : findDevice sys.devices dd = some dev) :
    (onMessage spec sys now topic d).devices =
      updateDevice sys.devices dd (markActive now) := by
  unfold onMessage
  rw [htopic]
  simp only [hdev]
  split
  · exact onHealth_devices _ _ _ _ _ _
  · split
    · rfl
    · rfl

/-- With the presence signal at 0 and a tracker last presence of 1, the
health branch retracts the trailing window, records presence 0 and
stores nothing, whoever the device is. -/
theorem onHealth_drop_eq (spec : SpecTable) (sys1 : Sys) (device? : Option DeviceDoc)
    (dd : String) (now : Nat) (d : Payload)
    (hlast : ((lookupA sys1.presenceState dd).getD {}).lastPresence = 1)
    (hp : (buildBase dd now d).signals.presence.getD 1 = 0) :
    onHealth spec sys1 device? dd now d =
      { sys1 with
          health := retractWindow sys1.health dd now
          presenceState := setA sys1.presenceState dd
            { lastPresence := (buildBase dd now d).signals.presence.getD 1
              lastValues := ((lookupA sys1.presenceState dd).getD {}).lastValues } } := by
  simp only [onHealth]
  rw [if_pos (And.intro hlast hp), if_pos hp]

/-- With the presence signal at 0 the health branch persists nothing,
whatever the tracker held before. -/
theorem onHealth_presence0_sub (spec : SpecTable) (sys1 : Sys)
    (device? : Option DeviceDoc) (dd : String) (now : Nat) (d : Payload)
    (hp : (buildBase dd now d).signals.presence.getD 1 = 0) :
    ∀ r ∈ (onHealth spec sys1 device? dd now d).health, r ∈ sys1.health := by
  intro r hr
  simp only [onHealth] at hr
  rw [if_pos hp] at hr
  split at hr
  · exact (mem_retractWindow sys1.health dd now r hr).1
  · exact hr

/-- With a presence signal other than 0 and a rule stage that rejects
(a violation or an empty change set), the health branch leaves the
stored records unchanged and commits the mutated tracker entry. -/
theorem onHealth_reject_eq (spec : SpecTable) (sys1 : Sys) (dev : DeviceDoc)
    (dd : String) (now : Nat) (d : Payload)
    (hpne : (buildBase dd now d).signals.presence.getD 1 ≠ 0)
    (hrej : (ruleStage (rulesFor spec dev.deviceType) d (buildBase dd now d)
        { lastPresence := (buildBase dd now d).signals.presence.getD 1
          lastValues := ((lookupA sys1.presenceState dd).getD {}).lastValues }).violations ≠ [] ∨
      (ruleStage (rulesFor spec dev.deviceType) d (buildBase dd now d)
        { lastPresence := (buildBase dd now d).signals.presence.getD 1
          lastValues := ((lookupA sys1.presenceState dd).getD {}).lastValues }).changes = []) :
    onHealth spec sys1 (some dev) dd now d =
      { sys1 with
          presenceState := setA
            (setA sys1.presenceState dd
              { lastPresence := (buildBase dd now d).signals.presence.getD 1
                lastValues := ((lookupA sys1.presenceState dd).getD {}).lastValues })
            dd
            (ruleStage (rulesFor spec dev.deviceType) d (buildBase dd now d)
              { lastPresence := (buildBase dd now d).signals.presence.getD 1
                lastValues := ((lookupA sys1.presenceState dd).getD {}).lastValues }).st } := by
  have hcneg : ¬(((lookupA sys1.presenceState dd).getD {}).lastPresence = (1 : Rat) ∧
      (buildBase dd now d).signals.presence.getD 1 = (0 : Rat)) :=
    fun hc => hpne hc.2
  simp only [onHealth]
  rw [if_neg hcneg, if_neg hpne]
  rcases hrej with hviol | hchg
  · rw [if_pos hviol]
  · by_cases hviol : (ruleStage (rulesFor spec dev.deviceType) d (buildBase dd now d)
        { lastPresence := (buildBase dd now d).signals.presence.getD 1
          lastValues := ((lookupA sys1.presenceState dd).getD {}).lastValues }).violations ≠ []
    · rw [if_pos hviol]
    · rw [if_neg hviol, if_pos hchg]

/-! ### Helper lemmas: the activation manager -/

theorem deactForProfile_deviceId (X : String) (d : DeviceDoc) :
    (deactForProfile X d).deviceId = d.deviceId := by
  unfold deactForProfile
  split <;> rfl

theorem setActiveDev_deviceId (X : String) (now : Nat) (d : DeviceDoc) :
    (setActiveDev X now d).deviceId = d.deviceId := rfl

theorem markActive_deviceId (now : Nat) (d : DeviceDoc) :
    (markActive now d).deviceId = d.deviceId := rfl

/-- After the deactivate-all phase no device can be both active and
bound to the profile. -/
theorem deactForProfile_not_activeX (X : String) (d : DeviceDoc) :
    ¬((deactForProfile X d).status = "active" ∧
      (deactForProfile X d).profileId = some X) := by
  unfold deactForProfile
  by_cases h : d.profileId = some X
  · rw [if_pos h]
    rintro ⟨hs, _⟩
    simp at hs
  · rw [if_neg h]
    rintro ⟨_, hp⟩
    exact h hp

theorem findDevice_map_deact (l : List DeviceDoc) (X id : String) :
    findDevice (l.map (deactForProfile X)) id =
      (findDevice l id).map (deactForProfile X) := by
  induction l with
  | nil => rfl
  | cons d rest ih =>
    by_cases h : d.deviceId = id
    · simp [findDevice, List.find?, deactForProfile_deviceId, h]
    · simp only [findDevice, List.map] at ih ⊢
      simp [List.find?, deactForProfile_deviceId, h, ih]

theorem actSetUserPtr_devices (sys : Sys) (u : Option String) (dd : String) :
    (actSetUserPtr sys u dd).devices = sys.devices := by
  cases u <;> rfl

/-- The device list after the three write phases of an activation:
exactly the devices whose identifier is the target are active and bound
to the requested profile. -/
theorem act_devices_char (l : List DeviceDoc) (A X : String) (now : Nat)
    (hnd : (l.map DeviceDoc.deviceId).Nodup)
    (hex : ∃ dv ∈ l, dv.deviceId = A) :
    ∀ dv ∈ updateDevice (l.map (deactForProfile X)) A (setActiveDev X now),
      ((dv.status = "active" ∧ dv.profileId = some X) ↔ dv.deviceId = A) := by
  induction l with
  | nil =>
    obtain ⟨dv, hdv, _⟩ := hex
    exact absurd hdv (List.not_mem_nil dv)
  | cons x rest ih =>
    rw [List.map_cons, List.nodup_cons] at hnd
    intro dv hdv
    by_cases hA : x.deviceId = A
    · rw [List.map_cons] at hdv
      unfold updateDevice updateFirstBy at hdv
      rw [if_pos (by simp [deactForProfile_deviceId, hA])] at hdv
      rcases List.mem_cons.mp hdv with heq | hmem
      · subst heq
        constructor
        · intro _
          rw [setActiveDev_deviceId, deactForProfile_deviceId, hA]
        · intro _
          exact ⟨rfl, rfl⟩
      · obtain ⟨y, hy, hyeq⟩ := List.mem_map.mp hmem
        constructor
        · intro hact
          exact absurd (hyeq ▸ hact) (deactForProfile_not_activeX X y)
        · intro hid
          exfalso
          apply hnd.1
          have hyid : y.deviceId = x.deviceId := by
            rw [hA, ← hid, ← hyeq, deactForProfile_deviceId]
          exact hyid ▸ List.mem_map.mpr ⟨y, hy, rfl⟩
    · rw [List.map_cons] at hdv
      unfold updateDevice updateFirstBy at hdv
      rw [if_neg (by simp [deactForProfile_deviceId, hA])] at hdv
      rcases List.mem_cons.mp hdv with heq | hmem
      · subst heq
        constructor
        · intro hact
          exact absurd hact (deactForProfile_not_activeX X x)
        · intro hid
          exact absurd (deactForProfile_deviceId X x ▸ hid) hA
      · refine ih hnd.2 ?_ dv hmem
        obtain ⟨dv0, hdv0, hdv0A⟩ := hex
        rcases List.mem_cons.mp hdv0 with heq0 | hmem0
        · exact absurd (heq0 ▸ hdv0A) hA
        · exact ⟨dv0, hmem0, hdv0A⟩

/-- activate never changes the set of device identifiers. -/
theorem activate_devices_ids (sys : Sys) (A : String) (p : Option String)
    (now : Nat) :
    (activate sys A p now).2.devices.map DeviceDoc.deviceId =
      sys.devices.map DeviceDoc.deviceId := by
  unfold activate
  cases p with
  | none => rfl
  | some X =>
    dsimp only
    split
    · rfl
    · cases hfind : findDevice sys.devices A with
      | none => rfl
      | some dev =>
        dsimp only
        split
        · split <;> rfl
        · unfold activateGo
          dsimp only
          rw [actSetUserPtr_devices]
          unfold actSaveActive actDeactivateAll
          dsimp only
          rw [updateDevice_map_deviceId _ _ _ (setActiveDev_deviceId X now),
            List.map_map]
          have : DeviceDoc.deviceId ∘ deactForProfile X = DeviceDoc.deviceId := by
            funext dd
            exact deactForProfile_deviceId X dd
          rw [this]

/-- A successful activation: the route answers ok with the profile name
in the message, and afterwards exactly the requested device is active
for the profile. -/
theorem activate_ok_post (sys : Sys) (A X : String) (now : Nat) (dev : DeviceDoc)
    (hnd : (sys.devices.map DeviceDoc.deviceId).Nodup)
    (hX : X ≠ "")
    (hfind : findDevice sys.devices A = some dev)
    (hnc : conflictCheck dev X = false) :
    (activate sys A (some X) now).1 =
      .ok (activatedMsg A (profileIdent sys.profiles X)) ∧
    (activate sys A (some X) now).2.devices =
      updateDevice (sys.devices.map (deactForProfile X)) A (setActiveDev X now) ∧
    ∀ dv ∈ (activate sys A (some X) now).2.devices,
      ((dv.status = "active" ∧ dv.profileId = some X) ↔ dv.deviceId = A) := by
  have hex : ∃ dv ∈ sys.devices, dv.deviceId = A := by
    refine ⟨dev, List.mem_of_find?_eq_some hfind, ?_⟩
    have := List.find?_some hfind
    exact of_decide_eq_true this
  unfold activate
  dsimp only
  rw [if_neg hX, hfind]
  dsimp only
  rw [hnc, if_neg (by decide : ¬(false = true))]
  unfold activateGo
  dsimp only
  refine ⟨rfl, ?_, ?_⟩
  · rw [actSetUserPtr_devices]
    rfl
  · rw [actSetUserPtr_devices]
    exact act_devices_char sys.devices A X now hnd hex

/-- The activated device as a successful activation leaves it. -/
theorem activate_ok_find_self (sys : Sys) (A X : String) (now : Nat)
    (dev : DeviceDoc)
    (hnd : (sys.devices.map DeviceDoc.deviceId).Nodup)
    (hX : X ≠ "")
    (hfind : findDevice sys.devices A = some dev)
    (hnc : conflictCheck dev X = false) :
    findDevice (activate sys A (some X) now).2.devices A =
      some (setActiveDev X now (deactForProfile X dev)) := by
  rw [(activate_ok_post sys A X now dev hnd hX hfind hnc).2.1,
    findDevice_updateDevice_self _ _ _ (setActiveDev_deviceId X now),
    findDevice_map_deact, hfind]
  rfl

/-- Any other device after a successful activation: deactivated for the
profile when it was bound to it, untouched otherwise. -/
theorem activate_ok_find_ne (sys : Sys) (A X B : String) (now : Nat)
    (dev : DeviceDoc)
    (hnd : (sys.devices.map DeviceDoc.deviceId).Nodup)
    (hX : X ≠ "")
    (hfind : findDevice sys.devices A = some dev)
    (hnc : conflictCheck dev X = false)
    (hBA : A ≠ B) :
    findDevice (activate sys A (some X) now).2.devices B =
      (findDevice sys.devices B).map (deactForProfile X) := by
  rw [(activate_ok_post sys A X now dev hnd hX hfind hnc).2.1,
    findDevice_updateDevice_ne _ _ _ _ (setActiveDev_deviceId X now) hBA,
    findDevice_map_deact]

theorem conflictCheck_setActive (X : String) (now : Nat) (d : DeviceDoc) :
    conflictCheck (setActiveDev X now d) X = false := by
  simp [conflictCheck, setActiveDev]

/-- A device that was either unbound, bound to the requested profile, or
not active, raises no conflict after the deactivate-all phase of that
profile. -/
theorem conflictCheck_deact (d : DeviceDoc) (X : String)
    (hd : d.status = "active" → d.profileId = none ∨ d.profileId = some X) :
    conflictCheck (deactForProfile X d) X = false := by
  unfold conflictCheck deactForProfile
  by_cases hp : d.profileId = some X
  · rw [if_pos hp]
    simp
  · rw [if_neg hp]
    by_cases hs : d.status = "active"
    · rcases hd hs with hnone | hsome
      · simp [hnone]
      · exact absurd hsome hp
    · simp [hs]

theorem findUser_update_self (us : List AppUser) (uid : String)
    (f : AppUser → AppUser) (hf : ∀ u, (f u).id = u.id) :
    (updateFirstBy (fun u => decide (u.id = uid)) f us).find?
        (fun u => decide (u.id = uid)) =
      (us.find? (fun u => decide (u.id = uid))).map f := by
  induction us with
  | nil => rfl
  | cons u rest ih =>
    by_cases h : u.id = uid
    · simp [updateFirstBy, List.find?, h, hf]
    · simp [updateFirstBy, List.find?, h, ih]

/-- Whatever the type field says, a known-device ingest marks the device
active first. -/
theorem httpIngest_devices (sys : Sys) (now : Nat) (id ty : String) (d : Payload)
    (dev : DeviceDoc) (hid : id ≠ "") (hty : ty ≠ "")
    (hfind : findDevice sys.devices id = some dev) :
    (httpIngest sys now (some id) (some ty) (some d)).2.devices =
      updateDevice sys.devices id (markActive now) := by
  unfold httpIngest
  dsimp only
  rw [if_neg (by simp [hid, hty]), hfind]
  dsimp only
  split
  · rfl
  · split
    · rfl
    · rfl

/-! ### The claims -/

/-- C1 counterexample: a health message whose presence signal is 0,
submitted for a known deviceId through POST /ingest, is persisted anyway
— and so is one whose heartRate 25 lies below the [30, 220] bound its
device type carries in the rule table — because the request path runs no
presence or rule gating at all, contradicting the claim that such
messages are not persisted. -/
theorem c1_presence_zero_persisted_cx :
    (buildBase "0001-AABBCCDDEEFF" 20000 exPayloadAbsent).signals.presence = some 0 ∧
    findDevice exSysStored.devices "0001-AABBCCDDEEFF" = some exDevice ∧
    (httpIngest exSysStored 20000 (some "0001-AABBCCDDEEFF") (some "health")
        (some exPayloadAbsent)).1 = HttpRes.healthSaved ∧
    (httpIngest exSysStored 20000 (some "0001-AABBCCDDEEFF") (some "health")
        (some exPayloadAbsent)).2.health.length = exSysStored.health.length + 1 ∧
    (lookupA exSpec exDevice.deviceType).isSome ∧
    fld exPayloadLow "heartRate" = some 25 ∧ (25 : Rat) < 30 ∧
    (httpIngest exSys 20000 (some "0001-AABBCCDDEEFF") (some "health")
        (some exPayloadLow)).1 = HttpRes.healthSaved ∧
    (httpIngest exSys 20000 (some "0001-AABBCCDDEEFF") (some "health")
        (some exPayloadLow)).2.health.length = 1 := by
  decide

/-- C1 (amended): the request-based endpoint applies neither the
Presence/Change Tracker nor the Rule Table decision: every health
ingest naming a known deviceId persists the merged record,
unconditionally on the presence signal and the rule bounds; the gating
happens only on the pub/sub path. -/
theorem c1_http_ingest_ungated (sys : Sys) (now : Nat) (id : String) (d : Payload)
    (dev : DeviceDoc) (hid : id ≠ "")
    (hfind : findDevice sys.devices id = some dev) :
    (httpIngest sys now (some id) (some "health") (some d)).1 = HttpRes.healthSaved ∧
    (httpIngest sys now (some id) (some "health") (some d)).2.health =
      mkHealthRecHttp (buildBase id now d) (foldLines (linesOf d)) :: sys.health := by
  unfold httpIngest
  dsimp only
  rw [if_neg (by simp [hid]), hfind]
  dsimp only
  rw [if_pos rfl]
  exact ⟨rfl, rfl⟩

/-- C1 witness: the amended claim at a concrete presence-0 payload. -/
theorem c1_http_ingest_ungated_wit :
    ("0001-AABBCCDDEEFF" : String) ≠ "" ∧
    ((httpIngest exSysStored 20000 (some "0001-AABBCCDDEEFF") (some "health")
        (some exPayloadAbsent)).1 = HttpRes.healthSaved ∧
     (httpIngest exSysStored 20000 (some "0001-AABBCCDDEEFF") (some "health")
        (some exPayloadAbsent)).2.health =
       mkHealthRecHttp (buildBase "0001-AABBCCDDEEFF" 20000 exPayloadAbsent)
         (foldLines (linesOf exPayloadAbsent)) :: exSysStored.health) :=
  ⟨by decide,
   c1_http_ingest_ungated exSysStored 20000 "0001-AABBCCDDEEFF" exPayloadAbsent
     exDevice (by decide) (by decide)⟩

/-- C2 counterexample: a known device whose type has no rule table
entry, message presence 1 — the claim says the message passes the rule
stage and is persisted, but nothing is persisted: the empty rule table
leaves the changes list empty and the no-change rejection fires. -/
theorem c2_empty_rules_not_persisted_cx :
    rulesFor [] exDevice.deviceType = [] ∧
    findDevice exSys.devices "0001-AABBCCDDEEFF" = some exDevice ∧
    (buildBase "0001-AABBCCDDEEFF" 20000 exPayloadOk).signals.presence.getD 1 = 1 ∧
    exSys.health = [] ∧
    (onMessage [] exSys 20000 "/0001-AABBCCDDEEFF/health" exPayloadOk).health = [] := by
  decide

/-- C2 (amended): for every inbound pub/sub health message whose known
device's type has an empty rule set, the message is never persisted,
presence 1 notwithstanding: the rules loop runs zero iterations, the
changes list stays empty and the no-change rejection drops the message.
The no-metric-changed rejection therefore applies also when the
device-type rule table is empty. -/
theorem c2_empty_rules_always_rejected (spec : SpecTable) (sys : Sys) (now : Nat)
    (topic : String) (d : Payload) (dd : String) (dev : DeviceDoc)
    (htopic : topicDeviceId topic = some dd)
    (hinc : strIncludes topic "/health" = true)
    (hfind : findDevice sys.devices dd = some dev)
    (hrules : rulesFor spec dev.deviceType = [])
    (hp1 : (buildBase dd now d).signals.presence.getD 1 = 1) :
    (onMessage spec sys now topic d).health = sys.health := by
  have hpne : (buildBase dd now d).signals.presence.getD 1 ≠ 0 := by
    rw [hp1]
    exact one_ne_zero
  unfold onMessage
  rw [htopic]
  dsimp only
  rw [hfind]
  dsimp only
  rw [hinc, if_pos rfl]
  rw [onHealth_reject_eq]
  · exact hpne
  · exact Or.inr (by rw [hrules]; rfl)

/-- C2 witness: the amended claim at the concrete empty-rule-table
system. -/
theorem c2_empty_rules_always_rejected_wit :
    topicDeviceId "/0001-AABBCCDDEEFF/health" = some "0001-AABBCCDDEEFF" ∧
    rulesFor [] exDevice.deviceType = [] ∧
    (onMessage [] exSys 20000 "/0001-AABBCCDDEEFF/health" exPayloadOk).health =
      exSys.health :=
  ⟨by decide, by decide,
   c2_empty_rules_always_rejected [] exSys 20000 "/0001-AABBCCDDEEFF/health"
     exPayloadOk "0001-AABBCCDDEEFF" exDevice (by decide) (by decide) (by decide)
     (by decide) (by decide)⟩

/-- C7: a heart-rate-variability line whose tag is HRV_DATA and whose 16
fields after the tag are all numeric populates all 16 metric-bag entries
and promotes hrv from the rmssd position and heartRate from the
hr_median position; a HRV_DATA line with fewer than 16 fields after the
tag populates none of the metric-bag entries. -/
theorem c7_hrv_decoder (line : String) (parts : List String)
    (hne : line ≠ "")
    (hparts : parts = (splitChar ',' (trimL line)).map trimL)
    (htag : toUpperL (parts.headD "") = "HRV_DATA") :
    ((parts.length ≥ 17 ∧ ∀ i ∈ List.range' 1 16, (toNumIdx parts i).isSome = true) →
      ∃ pl, parseUartLine line = some pl ∧
        hrvPopulated pl.metrics = true ∧
        pl.patch.hrv = pl.metrics.rmssd ∧
        pl.patch.heartRate = pl.metrics.hr_median) ∧
    (parts.length < 17 →
      ∃ pl, parseUartLine line = some pl ∧ pl.metrics = ({} : UMetrics)) := by
  have hpul : parseUartLine line = some (parseParts line parts) := by
    unfold parseUartLine
    rw [if_neg hne, hparts]
  constructor
  · rintro ⟨hlen, hnum⟩
    obtain ⟨v1, h1⟩ := Option.isSome_iff_exists.mp (hnum 1 (by decide))
    obtain ⟨v2, h2⟩ := Option.isSome_iff_exists.mp (hnum 2 (by decide))
    obtain ⟨v3, h3⟩ := Option.isSome_iff_exists.mp (hnum 3 (by decide))
    obtain ⟨v4, h4⟩ := Option.isSome_iff_exists.mp (hnum 4 (by decide))
    obtain ⟨v5, h5⟩ := Option.isSome_iff_exists.mp (hnum 5 (by decide))
    obtain ⟨v6, h6⟩ := Option.isSome_iff_exists.mp (hnum 6 (by decide))
    obtain ⟨v7, h7⟩ := Option.isSome_iff_exists.mp (hnum 7 (by decide))
    obtain ⟨v8, h8⟩ := Option.isSome_iff_exists.mp (hnum 8 (by decide))
    obtain ⟨v9, h9⟩ := Option.isSome_iff_exists.mp (hnum 9 (by decide))
    obtain ⟨v10, h10⟩ := Option.isSome_iff_exists.mp (hnum 10 (by decide))
    obtain ⟨v11, h11⟩ := Option.isSome_iff_exists.mp (hnum 11 (by decide))
    obtain ⟨v12, h12⟩ := Option.isSome_iff_exists.mp (hnum 12 (by decide))
    obtain ⟨v13, h13⟩ := Option.isSome_iff_exists.mp (hnum 13 (by decide))
    obtain ⟨v14, h14⟩ := Option.isSome_iff_exists.mp (hnum 14 (by decide))
    obtain ⟨v15, h15⟩ := Option.isSome_iff_exists.mp (hnum 15 (by decide))
    obtain ⟨v16, h16⟩ := Option.isSome_iff_exists.mp (hnum 16 (by decide))
    refine ⟨parseParts line parts, hpul, ?_, ?_, ?_⟩ <;>
      · unfold parseParts
        rw [htag, if_pos rfl, if_pos hlen]
        simp [hrvPopulated, jfDefined, h1, h2, h3, h4, h5, h6, h7, h8, h9,
          h10, h11, h12, h13, h14, h15, h16]
  · intro hshort
    refine ⟨parseParts line parts, hpul, ?_⟩
    unfold parseParts
    rw [htag, if_pos rfl, if_neg (by omega)]

/-- C7 witness: the decoder on a full 16-field line and on a 2-field
line. -/
theorem c7_hrv_decoder_wit :
    exHrvParts.length = 17 ∧ exHrvShortParts.length = 3 ∧
    (∃ pl, parseUartLine exHrvLine = some pl ∧
      hrvPopulated pl.metrics = true ∧
      pl.patch.hrv = pl.metrics.rmssd ∧
      pl.patch.heartRate = pl.metrics.hr_median) ∧
    (∃ pl, parseUartLine exHrvShort = some pl ∧ pl.metrics = ({} : UMetrics)) :=
  ⟨by decide, by decide,
   (c7_hrv_decoder exHrvLine exHrvParts (by decide) (by decide) (by decide)).1
     ⟨by decide, by decide⟩,
   (c7_hrv_decoder exHrvShort exHrvShortParts (by decide) (by decide) (by decide)).2
     (by decide)⟩

/-- C3: on a presence transition 1 to 0 for a device, the pipeline
deletes every already-persisted record of that device with a timestamp
in the trailing 12-second window ending at the transition and persists
nothing; the deletion is unconditional, so after any later message
(in particular an immediate 0-to-1 resume at a later clock) the window
ending at the transition still holds no record of the device; and any
health message whose presence signal is 0 (which is exactly what makes
the observed presence 0) persists nothing. -/
theorem c3_presence_retraction (spec : SpecTable) (sys : Sys) (now : Nat)
    (topic : String) (d : Payload) (dd : String)
    (htopic : topicDeviceId topic = some dd)
    (hinc : strIncludes topic "/health" = true)
    (hlast : ((lookupA sys.presenceState dd).getD {}).lastPresence = 1)
    (hp : (buildBase dd now d).signals.presence.getD 1 = 0) :
    (∀ r ∈ (onMessage spec sys now topic d).health,
        ¬(r.deviceId = dd ∧ now - 12000 ≤ r.timestamp)) ∧
    (∀ (now' : Nat) (topic' : String) (d' : Payload), now < now' →
        ∀ r ∈ (onMessage spec (onMessage spec sys now topic d) now' topic' d').health,
          r.deviceId = dd → ¬(now - 12000 ≤ r.timestamp ∧ r.timestamp ≤ now)) ∧
    (∀ (sys₂ : Sys) (now₂ : Nat) (topic₂ : String) (d₂ : Payload) (dd₂ : String),
        topicDeviceId topic₂ = some dd₂ →
        strIncludes topic₂ "/health" = true →
        (buildBase dd₂ now₂ d₂).signals.presence.getD 1 = 0 →
        ∀ r ∈ (onMessage spec sys₂ now₂ topic₂ d₂).health, r ∈ sys₂.health) := by
  have hhe : (onMessage spec sys now topic d).health =
      retractWindow sys.health dd now := by
    unfold onMessage
    rw [htopic]
    dsimp only
    rw [hinc, if_pos rfl, onHealth_drop_eq]
    · exact hlast
    · exact hp
  refine ⟨?_, ?_, ?_⟩
  · intro r hr
    rw [hhe] at hr
    exact (mem_retractWindow _ _ _ _ hr).2
  · intro now' topic' d' hlt r hr hrdd
    rcases mem_onMessage_health spec _ now' topic' d' r hr with hin | hts
    · rw [hhe] at hin
      have hnot := (mem_retractWindow _ _ _ _ hin).2
      rintro ⟨hge, _⟩
      exact hnot ⟨hrdd, hge⟩
    · rintro ⟨_, hle⟩
      rw [hts] at hle
      omega
  · intro sys₂ now₂ topic₂ d₂ dd₂ ht₂ hi₂ hp₂ r hr
    unfold onMessage at hr
    rw [ht₂] at hr
    dsimp only at hr
    rw [hi₂, if_pos rfl] at hr
    have hsub := onHealth_presence0_sub _ _ _ _ _ _ hp₂ r hr
    exact hsub

/-- C3 witness: a device with a record stored at t = 15000, a presence-0
message at t = 20000. -/
theorem c3_presence_retraction_wit :
    topicDeviceId "/0001-AABBCCDDEEFF/health" = some "0001-AABBCCDDEEFF" ∧
    ((lookupA exSysStored.presenceState "0001-AABBCCDDEEFF").getD {}).lastPresence = 1 ∧
    (buildBase "0001-AABBCCDDEEFF" 20000 exPayloadAbsent).signals.presence.getD 1 = 0 ∧
    (∀ r ∈ (onMessage exSpec exSysStored 20000 "/0001-AABBCCDDEEFF/health"
        exPayloadAbsent).health,
      ¬(r.deviceId = "0001-AABBCCDDEEFF" ∧ 20000 - 12000 ≤ r.timestamp)) :=
  ⟨by decide, by decide, by decide,
   (c3_presence_retraction exSpec exSysStored 20000 "/0001-AABBCCDDEEFF/health"
     exPayloadAbsent "0001-AABBCCDDEEFF" (by decide) (by decide) (by decide)
     (by decide)).1⟩

/-- C9: a pub/sub health message carrying a rule-bounded metric whose
value differs from the tracked baseline but violates a bound is not
persisted, yet the rules loop still counts the metric as changed and
overwrites the tracker baseline with the rejected out-of-range value
(the message must reach the rules loop, so its presence signal is not
0 and its device is known). -/
theorem c9_reject_still_mutates_tracker (spec : SpecTable) (sys : Sys) (now : Nat)
    (topic : String) (d : Payload) (dd : String) (dev : DeviceDoc)
    (key : String) (rule : MRule) (v : Rat)
    (htopic : topicDeviceId topic = some dd)
    (hinc : strIncludes topic "/health" = true)
    (hfind : findDevice sys.devices dd = some dev)
    (hpne : (buildBase dd now d).signals.presence.getD 1 ≠ 0)
    (hnd : ((rulesFor spec dev.deviceType).map Prod.fst).Nodup)
    (hmem : (key, rule) ∈ rulesFor spec dev.deviceType)
    (hv : ruleValue d (buildBase dd now d) key = some v)
    (hdiff : lookupA ((lookupA sys.presenceState dd).getD {}).lastValues key ≠ some v)
    (hoor : outOfRange rule v) :
    (onMessage spec sys now topic d).health = sys.health ∧
    key ∈ (ruleStage (rulesFor spec dev.deviceType) d (buildBase dd now d)
      { lastPresence := (buildBase dd now d).signals.presence.getD 1
        lastValues := ((lookupA sys.presenceState dd).getD {}).lastValues }).changes ∧
    lookupA ((lookupA (onMessage spec sys now topic d).presenceState dd).getD
      {}).lastValues key = some v := by
  have hfold := ruleFold_out_of_range d (buildBase dd now d)
    (rulesFor spec dev.deviceType)
    ⟨[], [], { lastPresence := (buildBase dd now d).signals.presence.getD 1
               lastValues := ((lookupA sys.presenceState dd).getD {}).lastValues }⟩
    key rule v hnd hmem hv hdiff hoor
  unfold onMessage
  rw [htopic]
  dsimp only
  rw [hfind]
  dsimp only
  rw [hinc, if_pos rfl]
  rw [onHealth_reject_eq]
  · refine ⟨rfl, hfold.1, ?_⟩
    rw [lookupA_setA_self]
    simp only [Option.getD_some]
    exact hfold.2.1
  · exact hpne
  · exact Or.inl hfold.2.2

/-- C9 witness: heartRate 25 against the [30, 220] rule, a fresh
tracker. -/
theorem c9_reject_still_mutates_tracker_wit :
    findDevice exSys.devices "0001-AABBCCDDEEFF" = some exDevice ∧
    ((onMessage exSpec exSys 20000 "/0001-AABBCCDDEEFF/health" exPayloadLow).health =
        exSys.health ∧
     "heartRate" ∈ (ruleStage (rulesFor exSpec exDevice.deviceType) exPayloadLow
       (buildBase "0001-AABBCCDDEEFF" 20000 exPayloadLow)
       { lastPresence := (buildBase "0001-AABBCCDDEEFF" 20000
           exPayloadLow).signals.presence.getD 1
         lastValues := ((lookupA exSys.presenceState "0001-AABBCCDDEEFF").getD
           {}).lastValues }).changes ∧
     lookupA ((lookupA (onMessage exSpec exSys 20000 "/0001-AABBCCDDEEFF/health"
         exPayloadLow).presenceState "0001-AABBCCDDEEFF").getD {}).lastValues
       "heartRate" = some 25) :=
  ⟨by decide,
   c9_reject_still_mutates_tracker exSpec exSys 20000 "/0001-AABBCCDDEEFF/health"
     exPayloadLow "0001-AABBCCDDEEFF" exDevice "heartRate"
     { min := some 30, max := some 220 } 25 (by decide) (by decide) (by decide)
     (by decide) (by decide) (by decide) (by decide) (by decide)
     (Or.inl ⟨30, by decide, by decide⟩)⟩

/-- C10: the pipeline sets the device status to active and refreshes
lastActiveAt for every inbound message naming a known deviceId, on both
the pub/sub and the request paths, with no hypothesis on presence,
bounds or change tracking — so a message that is subsequently dropped
has already marked the device active. -/
theorem c10_marks_active_before_gating :
    (∀ (spec : SpecTable) (sys : Sys) (now : Nat) (topic : String) (d : Payload)
       (dd : String) (dev : DeviceDoc),
       topicDeviceId topic = some dd →
       findDevice sys.devices dd = some dev →
       ∃ dev', findDevice (onMessage spec sys now topic d).devices dd = some dev' ∧
         dev'.status = "active" ∧ dev'.lastActiveAt = some now) ∧
    (∀ (sys : Sys) (now : Nat) (id ty : String) (d : Payload) (dev : DeviceDoc),
       id ≠ "" → ty ≠ "" →
       findDevice sys.devices id = some dev →
       ∃ dev', findDevice (httpIngest sys now (some id) (some ty)
           (some d)).2.devices id = some dev' ∧
         dev'.status = "active" ∧ dev'.lastActiveAt = some now) := by
  constructor
  · intro spec sys now topic d dd dev htopic hfind
    rw [onMessage_devices_found spec sys now topic d dd dev htopic hfind,
      findDevice_updateDevice_self _ _ _ (markActive_deviceId now), hfind]
    exact ⟨markActive now dev, rfl, rfl, rfl⟩
  · intro sys now id ty d dev hid hty hfind
    rw [httpIngest_devices sys now id ty d dev hid hty hfind,
      findDevice_updateDevice_self _ _ _ (markActive_deviceId now), hfind]
    exact ⟨markActive now dev, rfl, rfl, rfl⟩

/-- C10 witness: a message the rule stage drops (heartRate 25 below the
minimum) still marks the device active with a fresh lastActiveAt. -/
theorem c10_marks_active_before_gating_wit :
    (onMessage exSpec exSys 20000 "/0001-AABBCCDDEEFF/health" exPayloadLow).health
        = [] ∧
    (∃ dev', findDevice (onMessage exSpec exSys 20000 "/0001-AABBCCDDEEFF/health"
        exPayloadLow).devices "0001-AABBCCDDEEFF" = some dev' ∧
      dev'.status = "active" ∧ dev'.lastActiveAt = some 20000) ∧
    (∃ dev', findDevice (httpIngest exSys 20000 (some "0001-AABBCCDDEEFF")
        (some "health") (some exPayloadLow)).2.devices "0001-AABBCCDDEEFF" =
          some dev' ∧
      dev'.status = "active" ∧ dev'.lastActiveAt = some 20000) :=
  ⟨by decide,
   c10_marks_active_before_gating.1 exSpec exSys 20000 "/0001-AABBCCDDEEFF/health"
     exPayloadLow "0001-AABBCCDDEEFF" exDevice (by decide) (by decide),
   c10_marks_active_before_gating.2 exSys 20000 "0001-AABBCCDDEEFF" "health"
     exPayloadLow exDevice (by decide) (by decide) (by decide)⟩

/-- C4: a successful sequential activate(deviceA, profileX) leaves
exactly deviceA active among the devices bound to profileX, and a
second activate of the same pair with no intervening activation
succeeds again and leaves the same picture. -/
theorem c4_activation_exclusive_idempotent (sys : Sys) (A X : String)
    (now now' : Nat) (dev : DeviceDoc)
    (hnd : (sys.devices.map DeviceDoc.deviceId).Nodup)
    (hX : X ≠ "")
    (hfind : findDevice sys.devices A = some dev)
    (hnc : conflictCheck dev X = false) :
    (∃ m, (activate sys A (some X) now).1 = ActRes.ok m) ∧
    (∀ dv ∈ (activate sys A (some X) now).2.devices,
        ((dv.status = "active" ∧ dv.profileId = some X) ↔ dv.deviceId = A)) ∧
    (∃ m', (activate (activate sys A (some X) now).2 A (some X) now').1 =
        ActRes.ok m') ∧
    (∀ dv ∈ (activate (activate sys A (some X) now).2 A (some X) now').2.devices,
        ((dv.status = "active" ∧ dv.profileId = some X) ↔ dv.deviceId = A)) := by
  have h1 := activate_ok_post sys A X now dev hnd hX hfind hnc
  have hnd' : ((activate sys A (some X) now).2.devices.map DeviceDoc.deviceId).Nodup := by
    rw [activate_devices_ids]
    exact hnd
  have hfind' := activate_ok_find_self sys A X now dev hnd hX hfind hnc
  have hnc' := conflictCheck_setActive X now (deactForProfile X dev)
  have h2 := activate_ok_post (activate sys A (some X) now).2 A X now' _ hnd' hX
    hfind' hnc'
  exact ⟨⟨_, h1.1⟩, h1.2.2, ⟨_, h2.1⟩, h2.2.2⟩

/-- C4 witness: activating device A for profile X twice over a
two-device collection. -/
theorem c4_activation_exclusive_idempotent_wit :
    (actSys.devices.map DeviceDoc.deviceId).Nodup ∧
    ((∃ m, (activate actSys "A" (some "X") 5).1 = ActRes.ok m) ∧
     (∀ dv ∈ (activate actSys "A" (some "X") 5).2.devices,
        ((dv.status = "active" ∧ dv.profileId = some "X") ↔ dv.deviceId = "A")) ∧
     (∃ m', (activate (activate actSys "A" (some "X") 5).2 "A" (some "X") 6).1 =
        ActRes.ok m') ∧
     (∀ dv ∈ (activate (activate actSys "A" (some "X") 5).2 "A" (some "X")
          6).2.devices,
        ((dv.status = "active" ∧ dv.profileId = some "X") ↔ dv.deviceId = "A"))) :=
  ⟨by decide,
   c4_activation_exclusive_idempotent actSys "A" "X" 5 6 actDevA (by decide)
     (by decide) (by decide) (by decide)⟩

/-- C5: a device active under a different profile than the requested one
makes activate answer Conflict, with the conflicting profile identifier
in the message, and leaves the whole system (device status, profile
binding, every other device and user) untouched. -/
theorem c5_conflict_names_profile (sys : Sys) (A Y P : String) (now : Nat)
    (dev : DeviceDoc)
    (hfind : findDevice sys.devices A = some dev)
    (hact : dev.status = "active")
    (hprof : dev.profileId = some P)
    (hPY : P ≠ Y)
    (hY : Y ≠ "") :
    activate sys A (some Y) now =
      (ActRes.conflict (conflictMsg A (profileIdent sys.profiles P)), sys) := by
  have hcc : conflictCheck dev Y = true := by
    simp [conflictCheck, hact, hprof, hPY]
  unfold activate
  dsimp only
  rw [if_neg hY, hfind]
  dsimp only
  rw [hcc, if_pos rfl, hprof]

/-- C5 witness: device A active under profile P whose document names the
identifier Alice; activating for Y fails naming Alice and changes
nothing. -/
theorem c5_conflict_names_profile_wit :
    conflictMsg "A" (profileIdent conflSys.profiles "P") =
      "Device A is already active on profile \"Alice\"" ∧
    activate conflSys "A" (some "Y") 9 =
      (ActRes.conflict (conflictMsg "A" (profileIdent conflSys.profiles "P")),
       conflSys) :=
  ⟨by decide,
   c5_conflict_names_profile conflSys "A" "Y" "P" 9
     { deviceId := "A", status := "active", profileId := some "P",
       userId := some "uA" }
     (by decide) (by decide) (by decide) (by decide) (by decide)⟩

/-- C6 counterexample: the deactivation endpoint performs no ownership
test.  Device D is owned by user V, user U issues the request, and the
device status still flips from active to inactive, contradicting the
claim that a non-owner request leaves the status unchanged. -/
theorem c6_no_ownership_cx :
    findDevice otherOwnerSys.devices "D" =
      some { deviceId := "D", status := "active", userId := some "V" } ∧
    ¬("V" = "U") ∧
    (setInactiveDevice otherOwnerSys "U" (some "D")).1 =
      DeactRes.ok "Device D set as inactive" ∧
    (findDevice (setInactiveDevice otherOwnerSys "U" (some "D")).2.devices
        "D").map DeviceDoc.status = some "inactive" := by
  decide

/-- C6 (amended): deactivate(deviceId) requires only that the requesting
user exists and the device exists — ownership is never checked: the
device is set inactive whoever owns it, and the device is removed from
the requesting user's activeDevices collection. -/
theorem c6_deactivate_no_ownership_check (sys : Sys) (U D : String)
    (u : AppUser) (dev : DeviceDoc)
    (hD : D ≠ "")
    (hu : sys.users.find? (fun x => x.id = U) = some u)
    (hdev : findDevice sys.devices D = some dev) :
    (setInactiveDevice sys U (some D)).1 =
      DeactRes.ok ("Device " ++ D ++ " set as inactive") ∧
    (∃ d', findDevice (setInactiveDevice sys U (some D)).2.devices D = some d' ∧
      d'.status = "inactive") ∧
    (setInactiveDevice sys U (some D)).2.users.find? (fun x => x.id = U) =
      some { u with activeDevices :=
        u.activeDevices.filter (fun i => decide (i ≠ dev.deviceId)) } := by
  unfold setInactiveDevice
  dsimp only
  rw [if_neg hD, hu]
  dsimp only
  rw [hdev]
  dsimp only
  refine ⟨rfl, ?_, ?_⟩
  · rw [findDevice_updateDevice_self sys.devices D
      (fun d => { d with status := "inactive" }) (fun _ => rfl), hdev]
    exact ⟨_, rfl, rfl⟩
  · rw [findUser_update_self sys.users U
      (fun x => { x with activeDevices :=
        x.activeDevices.filter (fun i => decide (i ≠ dev.deviceId)) })
      (fun _ => rfl), hu]
    rfl

/-- C6 witness: the amended claim on the non-owner scenario — user U
exists, device D is owned by V, and the call still succeeds, flips the
status and drops D from the activeDevices of U. -/
theorem c6_deactivate_no_ownership_check_wit :
    otherOwnerSys.users.find? (fun x => x.id = "U") =
      some { id := "U", activeDevices := ["D"] } ∧
    ((setInactiveDevice otherOwnerSys "U" (some "D")).1 =
      DeactRes.ok ("Device " ++ "D" ++ " set as inactive") ∧
    (∃ d', findDevice (setInactiveDevice otherOwnerSys "U" (some "D")).2.devices
        "D" = some d' ∧ d'.status = "inactive") ∧
    (setInactiveDevice otherOwnerSys "U" (some "D")).2.users.find?
        (fun x => x.id = "U") =
      some { id := "U", activeDevices :=
        (["D"] : List String).filter (fun i => decide (i ≠ ("D" : String))) }) :=
  ⟨by decide,
   c6_deactivate_no_ownership_check otherOwnerSys "U" "D"
     { id := "U", activeDevices := ["D"] }
     { deviceId := "D", status := "active", userId := some "V" }
     (by decide) (by decide) (by decide)⟩

/-- C8 counterexample: the activate route takes no per-profile lock;
both conflict checks pass on the initial reads of devices A and B, and
the event-loop interleaving that runs both deactivate-all phases before
either save phase ends with both A and B active for profile X —
contradicting the claim that exactly one of the two ends active. -/
theorem c8_interleaving_both_active_cx :
    findDevice actSys.devices "A" = some actDevA ∧
    findDevice actSys.devices "B" = some actDevB ∧
    conflictCheck actDevA "X" = false ∧
    conflictCheck actDevB "X" = false ∧
    activeCountFor raceResult "X" = 2 := by
  decide

/-- C8 (amended): the code serializes nothing, so mutual exclusion holds
only when the calls do not interleave: two whole activations run
sequentially for the same profile leave exactly the later device active
for it, while the interleaved schedule exhibited in the counterexample
leaves both active. -/
theorem c8_sequential_exclusive (sys : Sys) (A B X : String) (now now' : Nat)
    (devA devB : DeviceDoc)
    (hnd : (sys.devices.map DeviceDoc.deviceId).Nodup)
    (hX : X ≠ "")
    (hfindA : findDevice sys.devices A = some devA)
    (hncA : conflictCheck devA X = false)
    (hAB : A ≠ B)
    (hfindB : findDevice sys.devices B = some devB)
    (hB : devB.status = "active" → devB.profileId = none ∨ devB.profileId = some X) :
    (∃ m, (activate sys A (some X) now).1 = ActRes.ok m) ∧
    (∃ m', (activate (activate sys A (some X) now).2 B (some X) now').1 =
        ActRes.ok m') ∧
    (∀ dv ∈ (activate (activate sys A (some X) now).2 B (some X) now').2.devices,
        ((dv.status = "active" ∧ dv.profileId = some X) ↔ dv.deviceId = B)) := by
  have h1 := activate_ok_post sys A X now devA hnd hX hfindA hncA
  have hnd' : ((activate sys A (some X) now).2.devices.map DeviceDoc.deviceId).Nodup := by
    rw [activate_devices_ids]
    exact hnd
  have hfindB' : findDevice (activate sys A (some X) now).2.devices B =
      some (deactForProfile X devB) := by
    rw [activate_ok_find_ne sys A X B now devA hnd hX hfindA hncA hAB, hfindB]
    rfl
  have hncB := conflictCheck_deact devB X hB
  have h2 := activate_ok_post (activate sys A (some X) now).2 B X now' _ hnd' hX
    hfindB' hncB
  exact ⟨⟨_, h1.1⟩, ⟨_, h2.1⟩, h2.2.2⟩

/-- C8 witness: the sequential part at the concrete two-device system of
the counterexample. -/
theorem c8_sequential_exclusive_wit :
    (actSys.devices.map DeviceDoc.deviceId).Nodup ∧
    ((∃ m, (activate actSys "A" (some "X") 5).1 = ActRes.ok m) ∧
     (∃ m', (activate (activate actSys "A" (some "X") 5).2 "B" (some "X") 6).1 =
        ActRes.ok m') ∧
     (∀ dv ∈ (activate (activate actSys "A" (some "X") 5).2 "B" (some "X")
          6).2.devices,
        ((dv.status = "active" ∧ dv.profileId = some "X") ↔ dv.deviceId = "B"))) :=
  ⟨by decide,
   c8_sequential_exclusive actSys "A" "B" "X" 5 6 actDevA actDevB (by decide)
     (by decide) (by decide) (by decide) (by decide) (by decide)
     (fun h => absurd h (by decide))⟩

end Dozemate
